import Mathlib

/-!
# BandCode: wearable safety band firmware (`src/Code.cpp`)

A shallow embedding of the Arduino sketch and a verification of its
event-detection and alerting logic.

Conventions of the embedding

* The sketch targets the Arduino Uno: `long` is a 32-bit signed integer and
  `unsigned long` a 32-bit unsigned integer.  `long` values are `Int`s and every
  `long` addition goes through `addLong`, which wraps to 32 bits; `unsigned long`
  values are `Nat`s and the subtraction `millis() - x` is `subULong`.
* The globals of the sketch are the fields of `State`.
* Everything the sketch reads from the outside (pin levels, `millis()`, bytes of
  the radar serial port, the string returned by the location resolver) is an
  explicit argument of the function that reads it.
* Everything the sketch does to the outside (pin writes, diagnostic log, display,
  SMS batches, delays) is recorded, in program order, as a list of `Effect`s.
* C strings are lists of bytes (`CStr`); the literals of the sketch are the UTF-8
  encodings of the corresponding Lean literals (`cstr`).
* Library code the sketch calls but does not define (the TinyGPS++ parser and the
  `String(value, decimalPlaces)` conversion used by `getGPSLocation`) is a parameter
  (`GPSLibrary`).
-/

namespace BandCode

set_option maxRecDepth 100000

/-! ## Basic types -/

/-- Logic level of a digital pin (`LOW` = 0, `HIGH` = 1). -/
inductive Level where
  | LOW
  | HIGH
  deriving DecidableEq, Repr

/-- The pins the sketch reads or writes after `setup`. -/
inductive Pin where
  | RADAR_OUT_PIN
  | WIRE_PIN
  | BUZZER_PIN
  | LED_PIN
  | SAFE_BUTTON
  deriving DecidableEq, Repr

/-- A C string: the bytes before the terminating NUL. -/
abbrev CStr := List UInt8

/-- The bytes of a string literal of the sketch (UTF-8, as stored by the compiler). -/
def cstr (s : String) : CStr := s.data.flatMap String.utf8EncodeChar

/-- Decimal rendering of an `int`, as done by `%d` and by `Serial.println(int)`. -/
def fmtInt (n : Int) : CStr := cstr (toString n)

/-- The content of the destination buffer after `snprintf(buf, size, ...)`, given the
fully formatted text: at most `size - 1` bytes are stored. -/
def snprintf (size : Nat) (formatted : CStr) : CStr := formatted.take (size - 1)

/-- Observable actions of the sketch, at the granularity of the calls it makes. -/
inductive Effect where
  | digitalWrite (pin : Pin) (val : Level)
  | serialPrint (text : CStr)
  | serialPrintln (text : CStr)
  | showMessage (line1 line2 : CStr)
  | getGPSLocation (result : CStr)
  | sendSMSToAll (text : CStr)
  | delay (ms : Nat)
  | sendSMS (number text : CStr)
  | simPrint (text : CStr)
  | simPrintln (text : CStr)
  | simWrite (byte : UInt8)
  deriving DecidableEq

/-- The global variables of the sketch. -/
structure State where
  lastRead : Nat
  buttonPressStart : Nat
  buttonPressed : Bool
  safeMode : Bool
  baselineEnergy : Int
  calibrated : Bool
  wireBroken : Bool
  alertSent : Bool
  personThreshold : Fin 6 → Int

/-- The globals as initialised at program start (lines 29-40; `personThreshold` is a
zero-initialised global array). -/
def initState : State where
  lastRead := 0
  buttonPressStart := 0
  buttonPressed := false
  safeMode := false
  baselineEnergy := 0
  calibrated := false
  wireBroken := false
  alertSent := false
  personThreshold := fun _ => 0

/-- Number of calibration samples, `CALIBRATION_SAMPLES`. -/
def CALIBRATION_SAMPLES : Nat := 15

/-! ## Machine arithmetic -/

/-- Reduction of an integer to the range of a 32-bit signed `long`. -/
def wrapLong (x : Int) : Int := (x + 2147483648) % 4294967296 - 2147483648

/-- Addition of two `long`s. -/
def addLong (a b : Int) : Int := wrapLong (a + b)

/-- Subtraction of two `unsigned long`s, `a - b` modulo 2^32. -/
def subULong (a b : Nat) : Nat := (a % 4294967296 + 4294967296 - b % 4294967296) % 4294967296

/-! ## Radar sampling and calibration -/

/-- The loop of `readEnergySample` (lines 228-231) on the bytes the radar port has
available: `energy` and `count` are the loop variables; the result is the final
`energy` and the bytes left in the port. -/
def readEnergySampleLoop : List UInt8 → Int → Nat → Int × List UInt8
  | [], energy, _ => (energy, [])
  | b :: rest, energy, count =>
    if count < 50 then readEnergySampleLoop rest (addLong energy (b.toNat : Int)) (count + 1)
    else (energy, b :: rest)

/-- Function `readEnergySample` (lines 225-233): returned energy and remaining bytes. -/
def readEnergySample (radar : List UInt8) : Int × List UInt8 :=
  readEnergySampleLoop radar 0 0

/-- Value of `totalEnergy` after `i` iterations of the calibration loop (lines 86-90);
`radar k` is the content of the radar port at iteration `k`. -/
def calibrationTotal (radar : Nat → List UInt8) : Nat → Int
  | 0 => 0
  | i + 1 =>
    if (radar i).isEmpty then calibrationTotal radar i
    else addLong (calibrationTotal radar i) (readEnergySample (radar i)).1

/-- The calibration part of `setup` (lines 85-97), the only part of `setup` that writes
globals. -/
def setup (s : State) (radar : Nat → List UInt8) : State :=
  let totalEnergy := calibrationTotal radar CALIBRATION_SAMPLES
  let baselineEnergy := Int.tdiv totalEnergy (CALIBRATION_SAMPLES : Int)
  let p1 := Function.update s.personThreshold 1 (addLong baselineEnergy 2000)
  let p2 := Function.update p1 2 (addLong baselineEnergy 4000)
  let p3 := Function.update p2 3 (addLong baselineEnergy 7000)
  let p4 := Function.update p3 4 (addLong baselineEnergy 10000)
  let p5 := Function.update p4 5 (addLong baselineEnergy 13000)
  { s with baselineEnergy := baselineEnergy, personThreshold := p5, calibrated := true }

/-- The calibration sample of one iteration (line 88): what `readEnergySample` returns,
and `0` when the port has nothing available. -/
def calibrationSample (radar : List UInt8) : Int :=
  if radar.isEmpty then 0 else (readEnergySample radar).1

/-! ## Occupancy classification -/

/-- Function `estimateHumans` (lines 235-241), with the global threshold array as an
argument. -/
def estimateHumans (personThreshold : Fin 6 → Int) (energy : Int) : Int :=
  if energy ≤ personThreshold 1 then 1
  else if energy ≤ personThreshold 2 then 2
  else if energy ≤ personThreshold 3 then 3
  else if energy ≤ personThreshold 4 then 4
  else 5

/-- The drain loop of the occupancy block (lines 159-162): sum of the bytes read. -/
def drainRadar (radar : List UInt8) : Int :=
  radar.foldl (fun energySum b => addLong energySum (b.toNat : Int)) 0

/-- The text of the occupancy alert (lines 170-171). -/
def peopleAlert (humans : Int) (gpsText : CStr) : CStr :=
  snprintf 120 (cstr "🚨 " ++ fmtInt humans ++ cstr " people! " ++ gpsText)

/-- Classification and alerting on a drained energy sum (lines 164-177); `gpsText` is
what `getGPSLocation` returns if it is called. -/
def classifyEnergy (s : State) (energySum : Int) (gpsText : CStr) : State × List Effect :=
  if s.calibrated ∧ energySum > s.baselineEnergy then
    let humans := estimateHumans s.personThreshold energySum
    let log :=
      [Effect.serialPrint (cstr "👥 Humans: "), Effect.serialPrintln (fmtInt humans),
       Effect.showMessage (cstr "People Nearby")
         (if humans = 1 then cstr "1 Detected" else cstr "Multiple")]
    if humans ≥ 3 ∧ ¬ s.alertSent then
      ({ s with alertSent := true },
       log ++ [Effect.getGPSLocation gpsText, Effect.sendSMSToAll (peopleAlert humans gpsText)])
    else (s, log)
  else ({ s with alertSent := false }, [])

/-- The occupancy block of `loop` (lines 157-178); `tGate` and `tStamp` are the values
returned by the two calls of `millis()`, `radar` the bytes drained from the port. -/
def humanCount (s : State) (tGate tStamp : Nat) (radar : List UInt8) (gpsText : CStr) :
    State × List Effect :=
  if subULong tGate s.lastRead > 2000 then
    classifyEnergy { s with lastRead := tStamp } (drainRadar radar) gpsText
  else (s, [])

/-! ## Tamper detection and presence -/

/-- The text of the tamper alert (lines 136-137). -/
def wireCutAlert (gpsText : CStr) : CStr :=
  snprintf 120 (cstr "🚨 Wire Cut! " ++ gpsText)

/-- The tamper block of `loop` (lines 128-145). -/
def wireBreakDetection (s : State) (wireState : Level) (gpsText : CStr) :
    State × List Effect :=
  if wireState = Level.HIGH ∧ ¬ s.wireBroken then
    ({ s with wireBroken := true },
     [Effect.digitalWrite Pin.BUZZER_PIN Level.HIGH, Effect.digitalWrite Pin.LED_PIN Level.HIGH,
      Effect.serialPrintln (cstr "⚠ ALERT: Wire Cut!"),
      Effect.showMessage (cstr "⚠ ALERT") (cstr "Wire Cut!"),
      Effect.getGPSLocation gpsText, Effect.sendSMSToAll (wireCutAlert gpsText)])
  else if wireState = Level.LOW ∧ s.wireBroken then
    ({ s with wireBroken := false },
     [Effect.digitalWrite Pin.BUZZER_PIN Level.LOW, Effect.digitalWrite Pin.LED_PIN Level.LOW,
      Effect.serialPrintln (cstr "✅ Wire Restored"),
      Effect.showMessage (cstr "Wire Restored") (cstr "OK ✅")])
  else (s, [])

/-- The presence block of `loop` (lines 148-154). -/
def radarPresence (presence : Level) : List Effect :=
  if presence = Level.HIGH then
    [Effect.digitalWrite Pin.LED_PIN Level.HIGH, Effect.serialPrintln (cstr "👤 Presence Detected")]
  else [Effect.digitalWrite Pin.LED_PIN Level.LOW]

/-! ## Mode controller -/

/-- Function `checkSafeButton` (lines 182-213); `btnState` is the level read from the
button, `tPress` the value `millis()` returns at line 187 and `tCheck` the value it
returns at line 194. -/
def checkSafeButton (s : State) (btnState : Level) (tPress tCheck : Nat) :
    State × List Effect :=
  let s1 : State :=
    if btnState = Level.LOW ∧ ¬ s.buttonPressed then
      { s with buttonPressed := true, buttonPressStart := tPress }
    else s
  let s2 : State :=
    if btnState = Level.HIGH ∧ s1.buttonPressed then { s1 with buttonPressed := false } else s1
  if s2.buttonPressed then
    let pressedDuration := subULong tCheck s2.buttonPressStart
    let r3 : State × List Effect :=
      if ¬ s2.safeMode ∧ pressedDuration ≥ 10000 then
        ({ s2 with safeMode := true },
         [Effect.digitalWrite Pin.BUZZER_PIN Level.LOW,
          Effect.serialPrintln (cstr "🔕 SAFE MODE ACTIVATED"),
          Effect.showMessage (cstr "SAFE MODE") (cstr "Band Off"),
          Effect.sendSMSToAll (cstr "🔕 Band Deactivated"), Effect.delay 1000])
      else (s2, [])
    let r4 : State × List Effect :=
      if r3.1.safeMode ∧ pressedDuration ≥ 3000 ∧ pressedDuration < 10000 then
        ({ r3.1 with safeMode := false },
         [Effect.serialPrintln (cstr "✅ SAFE MODE DEACTIVATED"),
          Effect.showMessage (cstr "ACTIVE MODE") (cstr "Band On"),
          Effect.sendSMSToAll (cstr "✅ Band Reactivated"), Effect.delay 1000])
      else (r3.1, [])
    (r4.1, r3.2 ++ r4.2)
  else (s2, [])

/-! ## The main cycle -/

/-- Everything one execution of `loop` may read from the outside, in program order. -/
structure LoopInput where
  btnState : Level
  tPress : Nat
  tCheck : Nat
  tBlink : Nat
  wireState : Level
  gpsWire : CStr
  presence : Level
  tGate : Nat
  tStamp : Nat
  radar : List UInt8
  gpsCount : CStr

/-- Function `loop` (lines 117-179). -/
def loop (s : State) (i : LoopInput) : State × List Effect :=
  let r1 := checkSafeButton s i.btnState i.tPress i.tCheck
  if r1.1.safeMode then
    (r1.1,
     r1.2 ++ [Effect.digitalWrite Pin.LED_PIN (if i.tBlink / 1000 % 2 = 0 then Level.LOW else Level.HIGH),
              Effect.showMessage (cstr "SAFE MODE") (cstr "Alerts OFF"), Effect.delay 800])
  else
    let r2 := wireBreakDetection r1.1 i.wireState i.gpsWire
    let e3 := radarPresence i.presence
    let r4 := humanCount r2.1 i.tGate i.tStamp i.radar i.gpsCount
    (r4.1, r1.2 ++ r2.2 ++ e3 ++ r4.2)

/-- The clock reading taken at the press-down edge of the hold that a call reading `LOW`
evaluates: the stored `buttonPressStart` when a press is in progress, otherwise the
reading `tPress` the call itself takes at line 187. -/
def pressEdge (s : State) (tPress : Nat) : Nat :=
  if s.buttonPressed then s.buttonPressStart else tPress

/-- The value of `pressedDuration` (line 194) in a call that reads the button `LOW`: the
time elapsed since the press-down edge. -/
def holdDuration (s : State) (tPress tCheck : Nat) : Nat :=
  subULong tCheck (pressEdge s tPress)

/-! ## Sequences of executions and observations on traces -/

/-- Successive executions of a block: each one starts in the state the previous one
left; the effects are concatenated in order. -/
def runSeq {ι : Type} (step : State → ι → State × List Effect) (s : State) :
    List ι → State × List Effect
  | [] => (s, [])
  | i :: rest => ((runSeq step (step s i).1 rest).1, (step s i).2 ++ (runSeq step (step s i).1 rest).2)

/-- Whether an effect is the dispatch of an SMS batch to the contact list. -/
def Effect.isBatch : Effect → Bool
  | Effect.sendSMSToAll _ => true
  | _ => false

/-- The texts of the SMS batches dispatched in a trace, in order. -/
def smsTexts : List Effect → List CStr
  | [] => []
  | Effect.sendSMSToAll text :: rest => text :: smsTexts rest
  | _ :: rest => smsTexts rest

/-- Number of SMS batches dispatched in a trace. -/
def smsBatches (trace : List Effect) : Nat := (smsTexts trace).length

/-- Number of "wire restored" notices (display update of line 144) in a trace. -/
def restoredNotices (trace : List Effect) : Nat :=
  trace.count (Effect.showMessage (cstr "Wire Restored") (cstr "OK ✅"))

/-- What one execution of the occupancy block reads. -/
structure CountInput where
  tGate : Nat
  tStamp : Nat
  radar : List UInt8
  gpsText : CStr

/-- One execution of the occupancy block on its inputs. -/
def humanCountStep (s : State) (i : CountInput) : State × List Effect :=
  humanCount s i.tGate i.tStamp i.radar i.gpsText

/-- What one execution of the tamper block reads. -/
structure WireInput where
  wireState : Level
  gpsText : CStr

/-- One execution of the tamper block on its inputs. -/
def wireStep (s : State) (i : WireInput) : State × List Effect :=
  wireBreakDetection s i.wireState i.gpsText

/-- What one call of `checkSafeButton` reads. -/
structure ButtonCall where
  btnState : Level
  tPress : Nat
  tCheck : Nat

/-- One call of `checkSafeButton` on its inputs. -/
def buttonStep (s : State) (c : ButtonCall) : State × List Effect :=
  checkSafeButton s c.btnState c.tPress c.tCheck

/-- Number of calls, in a sequence of `checkSafeButton` calls, that leave `safeMode`
different from what they found. -/
def modeChanges (s : State) : List ButtonCall → Nat
  | [] => 0
  | c :: rest =>
    (if (buttonStep s c).1.safeMode = s.safeMode then 0 else 1) + modeChanges (buttonStep s c).1 rest

/-- The clock readings of one continuous hold whose first call sees the press-down edge:
the reading taken at the edge, then the reading each call uses to evaluate the hold. -/
def holdTimes : List ButtonCall → List Nat
  | [] => []
  | c :: rest => c.tPress :: c.tCheck :: rest.map (fun k => k.tCheck)

/-- Every maximal run of `LOW` readings spans less than `limit` ms: each call that reads
`LOW` evaluates the hold less than `limit` ms (difference of clock readings modulo 2^32)
after the reading taken at the press-down edge of its run.  `edge` is that reading when
the sequence starts in the middle of a run. -/
def shortHolds (limit : Nat) : Option Nat → List ButtonCall → Bool
  | _, [] => true
  | edge, c :: rest =>
    match c.btnState with
    | Level.HIGH => shortHolds limit none rest
    | Level.LOW =>
      decide (subULong c.tCheck (edge.getD c.tPress) < limit) &&
        shortHolds limit (some (edge.getD c.tPress)) rest

/-- The press-down edge of the hold in progress in a state, if any. -/
def pendingEdge (s : State) : Option Nat :=
  if s.buttonPressed then some s.buttonPressStart else none

/-- The hold duration below which no transition can fire in the mode of a state:
10000 ms in ACTIVE mode, 3000 ms in SAFE mode. -/
def holdLimit (s : State) : Nat := if s.safeMode then 3000 else 10000

/-! ## Concrete scenarios -/

/-- The placeholder string of the location resolver (line 299). -/
def locationUnavailable : CStr := cstr "Location Unavailable"

/-- The state after a calibration in which each of the 15 samples is 1000
(four bytes of value 250): `baselineEnergy` is 1000. -/
def calibratedAt1000 : State := setup initState (fun _ => List.replicate 4 250)

/-- Radar bytes whose sum is 6000. -/
def radar6000 : List UInt8 := List.replicate 24 250

/-- Radar bytes whose sum is 500. -/
def radar500 : List UInt8 := List.replicate 2 250

/-- The wire readings LOW, LOW, HIGH, HIGH, LOW. -/
def wireLLHHL : List WireInput :=
  [⟨Level.LOW, locationUnavailable⟩, ⟨Level.LOW, locationUnavailable⟩,
   ⟨Level.HIGH, locationUnavailable⟩, ⟨Level.HIGH, locationUnavailable⟩,
   ⟨Level.LOW, locationUnavailable⟩]

/-- A state of the running sketch in ACTIVE mode with the button held since clock
reading 5000. -/
def heldActive : State := { initState with buttonPressed := true, buttonPressStart := 5000 }

/-- A state of the running sketch in SAFE mode with the button held since clock
reading 5000. -/
def heldSafe : State :=
  { initState with safeMode := true, buttonPressed := true, buttonPressStart := 5000 }

/-- The running sketch in SAFE mode, button released. -/
def safeIdle : State := { initState with safeMode := true }

/-- One continuous hold: the press-down edge is seen at clock reading 60000, the hold
is evaluated again at 63000 (3 s) and, after the reactivation batch has been sent, at
76000 (16 s). -/
def longHold : List ButtonCall :=
  [⟨Level.LOW, 60000, 60000⟩, ⟨Level.LOW, 63000, 63000⟩, ⟨Level.LOW, 76000, 76000⟩]

/-- Two presses of 9999 ms each, separated by a release. -/
def twoShortPresses : List ButtonCall :=
  [⟨Level.LOW, 1000, 1000⟩, ⟨Level.LOW, 6000, 6000⟩, ⟨Level.LOW, 10999, 10999⟩,
   ⟨Level.HIGH, 11500, 11500⟩,
   ⟨Level.LOW, 12000, 12000⟩, ⟨Level.LOW, 17000, 17000⟩, ⟨Level.LOW, 21999, 21999⟩]

/-- The calibrated sketch at baseline 1000 with an occupancy alert pending. -/
def alertPending : State := { calibratedAt1000 with alertSent := true }

/-! ## Alert dispatch -/

/-- The contact list `phoneNumbers` (lines 42-45). -/
def phoneNumbers : List CStr := [cstr "9609643460", cstr "8002213488"]

/-- Number of contacts, `totalNumbers` (line 46). -/
def totalNumbers : Nat := 2

/-- Function `sendSMS` (lines 261-270): what is written to the modem, and the waits.
The function never reads from the modem. -/
def sendSMS (number text : CStr) : List Effect :=
  [Effect.simPrint (cstr "AT+CMGS=\""), Effect.simPrint number, Effect.simPrintln (cstr "\""),
   Effect.delay 1000, Effect.simPrint text, Effect.delay 500, Effect.simWrite 26,
   Effect.delay 3000]

/-- Function `sendSMSToAll` (lines 272-282): the body of the `for` loop is executed for
`i = 0, ..., totalNumbers - 1`; each call of `sendSMS` is recorded with its arguments.
The function never reads from the modem. -/
def sendSMSToAll (text : CStr) : List Effect :=
  (List.range totalNumbers).flatMap (fun i =>
    [Effect.serialPrint (cstr "📨 Sending SMS to "), Effect.serialPrintln (phoneNumbers.getD i []),
     Effect.showMessage (cstr "Sending SMS") (phoneNumbers.getD i []),
     Effect.sendSMS (phoneNumbers.getD i []) text, Effect.delay 1500])
    ++ [Effect.serialPrintln (cstr "✅ All Messages Sent"),
        Effect.showMessage (cstr "Messages") (cstr "✅ Sent")]

/-- The delivery attempts of a trace: the arguments (number, text) of the calls of
`sendSMS`, in order. -/
def smsAttempts : List Effect → List (CStr × CStr)
  | [] => []
  | Effect.sendSMS number text :: rest => (number, text) :: smsAttempts rest
  | _ :: rest => smsAttempts rest

/-- The texts handed to the modem by `print` in a trace, in order. -/
def simPrinted : List Effect → List CStr
  | [] => []
  | Effect.simPrint text :: rest => text :: simPrinted rest
  | _ :: rest => simPrinted rest

/-- Sum of the values of a list of bytes. -/
def byteSum (bytes : List UInt8) : Int := (bytes.map (fun b => (b.toNat : Int))).sum

/-- A radar port holding 60 bytes of value 255. -/
def radarSaturated : List UInt8 := List.replicate 60 255

/-! ## The radar port across a cycle -/

/-- The drain loop of the occupancy block (lines 160-162) on the bytes available in the
radar port: `energySum` is the loop variable; the result is the final sum and the bytes
left in the port. -/
def drainLoop : List UInt8 → Int → Int × List UInt8
  | [], energySum => (energySum, [])
  | b :: rest, energySum => drainLoop rest (addLong energySum (b.toNat : Int))

/-- The bytes left in the radar port by the occupancy block (lines 157-178): the port is
read only by the drain loop, which runs only when the gate passes. -/
def humanCountPort (s : State) (tGate : Nat) (radar : List UInt8) : List UInt8 :=
  if subULong tGate s.lastRead > 2000 then (drainLoop radar 0).2 else radar

/-- The bytes left in the radar port by one execution of `loop`: the port is read only
in the occupancy block, which the early return of safe mode skips. -/
def loopPort (s : State) (i : LoopInput) : List UInt8 :=
  let r1 := checkSafeButton s i.btnState i.tPress i.tCheck
  if r1.1.safeMode then i.radar
  else humanCountPort (wireBreakDetection r1.1 i.wireState i.gpsWire).1 i.tGate i.radar

/-- The gate readings of the executions of the occupancy block, in a sequence of
executions, whose gate passed (the estimator runs). -/
def gateReadings (s : State) : List CountInput → List Nat
  | [] => []
  | r :: rest =>
    (if subULong r.tGate s.lastRead > 2000 then [r.tGate] else [])
      ++ gateReadings (humanCountStep s r).1 rest

/-- The clock readings taken by a sequence of executions of the occupancy block, in
order. -/
def clockReadings (runs : List CountInput) : List Nat :=
  runs.flatMap (fun r => [r.tGate, r.tStamp])

/-- Five executions of the occupancy block at clock readings 1000, 2500, 4000, 4400 and
7000. -/
def fiveTicks : List CountInput :=
  [⟨1000, 1000, [], locationUnavailable⟩, ⟨2500, 2501, [], locationUnavailable⟩,
   ⟨4000, 4000, [], locationUnavailable⟩, ⟨4400, 4400, [], locationUnavailable⟩,
   ⟨7000, 7001, [], locationUnavailable⟩]

/-- A cycle of `loop` in which the button is released, the wire reads HIGH, presence is
detected and the radar port holds bytes summing to 6000. -/
def busyCycle : LoopInput :=
  { btnState := Level.HIGH, tPress := 50000, tCheck := 50000, tBlink := 50000,
    wireState := Level.HIGH, gpsWire := locationUnavailable, presence := Level.HIGH,
    tGate := 50000, tStamp := 50000, radar := radar6000, gpsCount := locationUnavailable }

/-! ## Location resolver -/

/-- What `getGPSLocation` uses and the sketch does not define: the TinyGPS++ object `gps`
with parser state `σ` (`encode`, `location.isUpdated()`, `location.lat()`,
`location.lng()`, the coordinates being values of type `δ`), and the Arduino conversion
`String(value, decimalPlaces)` of such a value to text. -/
structure GPSLibrary (σ δ : Type) where
  encode : σ → UInt8 → σ
  locationIsUpdated : σ → Bool
  locationLat : σ → δ
  locationLng : σ → δ
  stringOfDouble : δ → Nat → CStr

/-- One iteration of the outer loop of `getGPSLocation` (line 286): the value `millis()`
returns in the loop condition, and the bytes the GPS port has available for the inner
loop of that iteration. -/
structure GPSPoll where
  now : Nat
  bytes : List UInt8

/-- Result of `getGPSLocation`: the returned string, the number of bytes read from the
GPS port, and the diagnostic log lines written. -/
structure GPSOutcome where
  text : CStr
  consumed : Nat
  log : List Effect
  deriving DecidableEq

/-- Result of the inner loop of `getGPSLocation`: it either leaves the function with a
fix, or ends because the port is empty; in both cases with the parser state reached and
the number of bytes read so far. -/
inductive GPSScan (σ : Type) where
  | fix (parser : σ) (consumed : Nat)
  | noFix (parser : σ) (consumed : Nat)

/-- The inner loop of `getGPSLocation` (lines 287-296) on the bytes available. -/
def scanBytes {σ δ : Type} (lib : GPSLibrary σ δ) : σ → List UInt8 → Nat → GPSScan σ
  | p, [], n => GPSScan.noFix p n
  | p, b :: rest, n =>
    if lib.locationIsUpdated (lib.encode p b) then GPSScan.fix (lib.encode p b) (n + 1)
    else scanBytes lib (lib.encode p b) rest (n + 1)

/-- The map link built at lines 290-292 from the parser state. -/
def mapLink {σ δ : Type} (lib : GPSLibrary σ δ) (p : σ) : CStr :=
  cstr "https://maps.google.com/?q=" ++ lib.stringOfDouble (lib.locationLat p) 6 ++ cstr ","
    ++ lib.stringOfDouble (lib.locationLng p) 6

/-- The outer loop of `getGPSLocation` (lines 286-299) on the successive iterations the
environment offers; `none` when the iterations given end before the function returns. -/
def getGPSLocationLoop {σ δ : Type} (lib : GPSLibrary σ δ) (start : Nat) :
    σ → Nat → List GPSPoll → Option GPSOutcome
  | _, _, [] => none
  | p, n, q :: rest =>
    if subULong q.now start < 5000 then
      match scanBytes lib p q.bytes n with
      | GPSScan.fix p' n' =>
        some ⟨mapLink lib p', n',
          [Effect.serialPrint (cstr "📍 Location: "), Effect.serialPrintln (mapLink lib p')]⟩
      | GPSScan.noFix p' n' => getGPSLocationLoop lib start p' n' rest
    else
      some ⟨cstr "Location Unavailable", n, [Effect.serialPrintln (cstr "📍 GPS: Unavailable")]⟩

/-- Function `getGPSLocation` (lines 284-300); `p` is the state of the parser object at
the call and `start` the value `millis()` returns at line 285. -/
def getGPSLocation {σ δ : Type} (lib : GPSLibrary σ δ) (p : σ) (start : Nat)
    (polls : List GPSPoll) : Option GPSOutcome :=
  getGPSLocationLoop lib start p 0 polls

/-- The parser state after a sequence of bytes has been fed to `encode`. -/
def parserAfter {σ δ : Type} (lib : GPSLibrary σ δ) (p : σ) (bytes : List UInt8) : σ :=
  bytes.foldl lib.encode p

/-- The bytes the GPS port offers in the iterations that start before 5000 ms have
elapsed since `start`, in order. -/
def windowBytes (start : Nat) (polls : List GPSPoll) : List UInt8 :=
  (polls.takeWhile (fun q => decide (subULong q.now start < 5000))).flatMap (fun q => q.bytes)

/-- Whether one of the iterations given starts 5000 ms or more after `start`. -/
def timedOut (start : Nat) (polls : List GPSPoll) : Bool :=
  polls.any (fun q => !decide (subULong q.now start < 5000))

/-- A stand-in for the library: the parser state is the number of line feeds seen with a
flag set by a line feed, and the coordinates are rendered as fixed texts. -/
def lineFeedGPS : GPSLibrary (Nat × Bool) Bool where
  encode := fun p b => if b = 10 then (p.1 + 1, true) else (p.1, false)
  locationIsUpdated := fun p => p.2
  locationLat := fun _ => true
  locationLng := fun _ => false
  stringOfDouble := fun v _ => if v then cstr "28.613900" else cstr "77.209000"

/-- Iterations of the resolver in which a line feed arrives 1200 ms after the start. -/
def pollsWithFix : List GPSPoll :=
  [⟨100, [36, 71]⟩, ⟨700, []⟩, ⟨1300, [80, 10, 36]⟩, ⟨1900, [71]⟩]

/-- Iterations of the resolver in which no line feed arrives before the timeout. -/
def pollsWithoutFix : List GPSPoll :=
  [⟨100, [36, 71]⟩, ⟨2500, [80]⟩, ⟨5099, []⟩, ⟨5100, [10]⟩]

/-! ## Tamper condition across safe mode -/

/-- In a sequence of cycles of `loop`, the wire reads HIGH in every cycle that is ACTIVE
when `checkSafeButton` returns (the cycles in which the wire is read at all). -/
def wireHighWhenActive (s : State) : List LoopInput → Bool
  | [] => true
  | i :: rest =>
    ((checkSafeButton s i.btnState i.tPress i.tCheck).1.safeMode
        || decide (i.wireState = Level.HIGH))
      && wireHighWhenActive (loop s i).1 rest

/-- An effect that is neither a write of HIGH to the buzzer nor the dispatch of a cut
alert. -/
def Effect.quiet (e : Effect) : Prop :=
  e ≠ Effect.digitalWrite Pin.BUZZER_PIN Level.HIGH ∧
    ∀ g : CStr, e ≠ Effect.sendSMSToAll (wireCutAlert g)

/-- The running sketch in ACTIVE mode with the wire cut (alert already raised) and the
button held since clock reading 5000. -/
def cutAndHeld : State := { heldActive with wireBroken := true }

/-- One cycle of `loop` with the wire reading HIGH and an empty radar port. -/
def wireHighCycle (btnState : Level) (t : Nat) : LoopInput :=
  { btnState := btnState, tPress := t, tCheck := t, tBlink := t,
    wireState := Level.HIGH, gpsWire := locationUnavailable, presence := Level.LOW,
    tGate := t, tStamp := t, radar := [], gpsCount := locationUnavailable }

/-- The hold reaches 10 s (safe mode entered), the button is released, then pressed and
held 3 s (band reactivated) and released; the wire reads HIGH all along. -/
def silencedCut : List LoopInput :=
  [wireHighCycle Level.LOW 15000, wireHighCycle Level.HIGH 30000,
   wireHighCycle Level.LOW 40000, wireHighCycle Level.LOW 43000,
   wireHighCycle Level.HIGH 60000, wireHighCycle Level.HIGH 61000]

/-! ## Machine arithmetic: basic facts -/

theorem wrapLong_eq_self (x : Int) (h1 : -2147483648 ≤ x) (h2 : x < 2147483648) :
    wrapLong x = x := by
  unfold wrapLong
  omega

theorem addLong_eq_add (a b : Int) (h1 : -2147483648 ≤ a + b) (h2 : a + b < 2147483648) :
    addLong a b = a + b :=
  wrapLong_eq_self (a + b) h1 h2

theorem byte_toNat_le (b : UInt8) : (b.toNat : Int) ≤ 255 := by
  have h := UInt8.toNat_lt b
  omega

/-! ## Radar sampling -/

theorem readEnergySampleLoop_bounds (buf : List UInt8) :
    ∀ (energy : Int) (count : Nat), count ≤ 50 → 0 ≤ energy → energy ≤ 255 * count →
      0 ≤ (readEnergySampleLoop buf energy count).1 ∧
        (readEnergySampleLoop buf energy count).1 ≤ 12750 := by
  induction buf with
  | nil =>
    intro energy count hc h0 h1
    simp only [readEnergySampleLoop]
    omega
  | cons b rest ih =>
    intro energy count hc h0 h1
    have hb := byte_toNat_le b
    simp only [readEnergySampleLoop]
    split
    · rename_i hlt
      have hadd : addLong energy (b.toNat : Int) = energy + (b.toNat : Int) :=
        addLong_eq_add _ _ (by omega) (by omega)
      rw [hadd]
      apply ih
      · omega
      · omega
      · push_cast
        omega
    · simp only
      omega

theorem readEnergySample_bounds (buf : List UInt8) :
    0 ≤ (readEnergySample buf).1 ∧ (readEnergySample buf).1 ≤ 12750 :=
  readEnergySampleLoop_bounds buf 0 0 (by omega) (by omega) (by omega)

theorem calibrationSample_bounds (buf : List UInt8) :
    0 ≤ calibrationSample buf ∧ calibrationSample buf ≤ 12750 := by
  unfold calibrationSample
  split
  · omega
  · exact readEnergySample_bounds buf

/-- The sum of the first `i` calibration samples. -/
theorem calibrationTotal_eq_sum (radar : Nat → List UInt8) :
    ∀ i : Nat, i ≤ 15 →
      calibrationTotal radar i = ((List.range i).map (fun k => calibrationSample (radar k))).sum ∧
        0 ≤ calibrationTotal radar i ∧ calibrationTotal radar i ≤ 12750 * i := by
  intro i
  induction i with
  | zero =>
    intro _
    simp [calibrationTotal]
  | succ n ih =>
    intro hn
    obtain ⟨heq, h0, h1⟩ := ih (by omega)
    have hs := calibrationSample_bounds (radar n)
    have hstep : calibrationTotal radar (n + 1)
        = calibrationTotal radar n + calibrationSample (radar n) := by
      simp only [calibrationTotal, calibrationSample]
      split
      · omega
      · rename_i hne
        have hr := readEnergySample_bounds (radar n)
        exact addLong_eq_add _ _ (by omega) (by omega)
    rw [hstep, List.range_succ, List.map_append, List.sum_append, ← heq]
    simp only [List.map_cons, List.map_nil, List.sum_cons, List.sum_nil, add_zero, true_and]
    push_cast
    omega

/-! ## Calibration -/

theorem setup_baselineEnergy (s : State) (radar : Nat → List UInt8) :
    (setup s radar).baselineEnergy
      = ((List.range 15).map (fun k => calibrationSample (radar k))).sum / 15 ∧
      0 ≤ (setup s radar).baselineEnergy ∧ (setup s radar).baselineEnergy ≤ 12750 := by
  obtain ⟨heq, h0, h1⟩ := calibrationTotal_eq_sum radar 15 (by omega)
  have hb : (setup s radar).baselineEnergy = calibrationTotal radar 15 / 15 := by
    simp only [setup, CALIBRATION_SAMPLES]
    exact Int.tdiv_eq_ediv h0 (by omega)
  rw [hb, ← heq]
  omega

theorem setup_personThreshold (s : State) (radar : Nat → List UInt8) :
    (setup s radar).personThreshold 0 = s.personThreshold 0 ∧
      (setup s radar).personThreshold 1 = (setup s radar).baselineEnergy + 2000 ∧
      (setup s radar).personThreshold 2 = (setup s radar).baselineEnergy + 4000 ∧
      (setup s radar).personThreshold 3 = (setup s radar).baselineEnergy + 7000 ∧
      (setup s radar).personThreshold 4 = (setup s radar).baselineEnergy + 10000 ∧
      (setup s radar).personThreshold 5 = (setup s radar).baselineEnergy + 13000 := by
  obtain ⟨_, h0, h1⟩ := setup_baselineEnergy s radar
  have e1 := addLong_eq_add (setup s radar).baselineEnergy 2000 (by omega) (by omega)
  have e2 := addLong_eq_add (setup s radar).baselineEnergy 4000 (by omega) (by omega)
  have e3 := addLong_eq_add (setup s radar).baselineEnergy 7000 (by omega) (by omega)
  have e4 := addLong_eq_add (setup s radar).baselineEnergy 10000 (by omega) (by omega)
  have e5 := addLong_eq_add (setup s radar).baselineEnergy 13000 (by omega) (by omega)
  refine ⟨?_, ?_, ?_, ?_, ?_, ?_⟩
  · simp [setup, Function.update]
  · rw [← e1]; simp [setup, Function.update]
  · rw [← e2]; simp [setup, Function.update]
  · rw [← e3]; simp [setup, Function.update]
  · rw [← e4]; simp [setup, Function.update]
  · rw [← e5]; simp [setup, Function.update]

/-- C1: `estimateHumans` is the staircase classifier: 1 up to `personThreshold[1]`, 2 up
to `personThreshold[2]`, 3 up to `personThreshold[3]`, 4 up to `personThreshold[4]`, and 5
above; entries 0 and 5 of the array are never consulted.  With the thresholds that
`setup` derives from any radar input, `baselineEnergy + 1` is classified 1,
`personThreshold[2] + 1` is classified 3 and every energy above `personThreshold[5]`
is classified 5. -/
theorem estimateHumans_staircase (personThreshold : Fin 6 → Int) (energy : Int) :
    (energy ≤ personThreshold 1 → estimateHumans personThreshold energy = 1) ∧
    (personThreshold 1 < energy → energy ≤ personThreshold 2 →
      estimateHumans personThreshold energy = 2) ∧
    (personThreshold 1 < energy → personThreshold 2 < energy → energy ≤ personThreshold 3 →
      estimateHumans personThreshold energy = 3) ∧
    (personThreshold 1 < energy → personThreshold 2 < energy → personThreshold 3 < energy →
      energy ≤ personThreshold 4 → estimateHumans personThreshold energy = 4) ∧
    (personThreshold 1 < energy → personThreshold 2 < energy → personThreshold 3 < energy →
      personThreshold 4 < energy → estimateHumans personThreshold energy = 5) ∧
    (∀ other : Fin 6 → Int, other 1 = personThreshold 1 → other 2 = personThreshold 2 →
      other 3 = personThreshold 3 → other 4 = personThreshold 4 →
      estimateHumans other energy = estimateHumans personThreshold energy) ∧
    (∀ (s : State) (radar : Nat → List UInt8),
      estimateHumans (setup s radar).personThreshold ((setup s radar).baselineEnergy + 1) = 1 ∧
      estimateHumans (setup s radar).personThreshold ((setup s radar).personThreshold 2 + 1) = 3 ∧
      (energy > (setup s radar).personThreshold 5 →
        estimateHumans (setup s radar).personThreshold energy = 5)) := by
  refine ⟨?_, ?_, ?_, ?_, ?_, ?_, ?_⟩
  · intro h1
    simp [estimateHumans, h1]
  · intro h1 h2
    simp [estimateHumans, not_le.mpr h1, h2]
  · intro h1 h2 h3
    simp [estimateHumans, not_le.mpr h1, not_le.mpr h2, h3]
  · intro h1 h2 h3 h4
    simp [estimateHumans, not_le.mpr h1, not_le.mpr h2, not_le.mpr h3, h4]
  · intro h1 h2 h3 h4
    simp [estimateHumans, not_le.mpr h1, not_le.mpr h2, not_le.mpr h3, not_le.mpr h4]
  · intro other h1 h2 h3 h4
    simp only [estimateHumans, h1, h2, h3, h4]
  · intro s radar
    obtain ⟨_, t1, t2, t3, t4, t5⟩ := setup_personThreshold s radar
    refine ⟨?_, ?_, ?_⟩
    · have h : (setup s radar).baselineEnergy + 1 ≤ (setup s radar).personThreshold 1 := by omega
      simp [estimateHumans, h]
    · have h1 : ¬ ((setup s radar).personThreshold 2 + 1 ≤ (setup s radar).personThreshold 1) := by
        omega
      have h2 : ¬ ((setup s radar).personThreshold 2 + 1 ≤ (setup s radar).personThreshold 2) := by
        omega
      have h3 : (setup s radar).personThreshold 2 + 1 ≤ (setup s radar).personThreshold 3 := by
        omega
      simp only [estimateHumans, h1, h2, h3, if_true, if_false]
    · intro h
      have h1 : ¬ (energy ≤ (setup s radar).personThreshold 1) := by omega
      have h2 : ¬ (energy ≤ (setup s radar).personThreshold 2) := by omega
      have h3 : ¬ (energy ≤ (setup s radar).personThreshold 3) := by omega
      have h4 : ¬ (energy ≤ (setup s radar).personThreshold 4) := by omega
      simp only [estimateHumans, h1, h2, h3, h4, if_false]

/-- Witness of C1: with the thresholds 3000, 5000, 8000, 11000, 14000 the energy 6000
falls in the third bucket. -/
theorem estimateHumans_staircase_witness :
    estimateHumans (fun i => [0, 3000, 5000, 8000, 11000, 14000].getD i.val 0) 6000 = 3 :=
  (estimateHumans_staircase (fun i => [0, 3000, 5000, 8000, 11000, 14000].getD i.val 0)
    6000).2.2.1 (by decide) (by decide) (by decide)

/-- C2: after the calibration of `setup`, whatever the radar port holds at the 15
iterations, `baselineEnergy` is the truncated mean of the 15 calibration samples (an
empty port counting as 0), `personThreshold[1..5]` are `baselineEnergy` plus 2000, 4000,
7000, 10000, 13000, strictly ascending, and `calibrated` is true; if the port is empty
at all 15 iterations, `baselineEnergy` is 0 and the thresholds are 2000, 4000, 7000,
10000, 13000. -/
theorem setup_calibration (s : State) (radar : Nat → List UInt8) :
    (setup s radar).baselineEnergy
        = Int.tdiv ((List.range 15).map (fun k => calibrationSample (radar k))).sum 15 ∧
      (setup s radar).personThreshold 1 = (setup s radar).baselineEnergy + 2000 ∧
      (setup s radar).personThreshold 2 = (setup s radar).baselineEnergy + 4000 ∧
      (setup s radar).personThreshold 3 = (setup s radar).baselineEnergy + 7000 ∧
      (setup s radar).personThreshold 4 = (setup s radar).baselineEnergy + 10000 ∧
      (setup s radar).personThreshold 5 = (setup s radar).baselineEnergy + 13000 ∧
      (setup s radar).personThreshold 1 < (setup s radar).personThreshold 2 ∧
      (setup s radar).personThreshold 2 < (setup s radar).personThreshold 3 ∧
      (setup s radar).personThreshold 3 < (setup s radar).personThreshold 4 ∧
      (setup s radar).personThreshold 4 < (setup s radar).personThreshold 5 ∧
      (setup s radar).calibrated = true ∧
      ((∀ k, k < 15 → radar k = []) →
        (setup s radar).baselineEnergy = 0 ∧
        (setup s radar).personThreshold 1 = 2000 ∧ (setup s radar).personThreshold 2 = 4000 ∧
        (setup s radar).personThreshold 3 = 7000 ∧ (setup s radar).personThreshold 4 = 10000 ∧
        (setup s radar).personThreshold 5 = 13000) := by
  obtain ⟨_, t1, t2, t3, t4, t5⟩ := setup_personThreshold s radar
  obtain ⟨heq, h0, h1⟩ := calibrationTotal_eq_sum radar 15 (by omega)
  have hb : (setup s radar).baselineEnergy
      = Int.tdiv ((List.range 15).map (fun k => calibrationSample (radar k))).sum 15 := by
    rw [← heq]
    simp [setup, CALIBRATION_SAMPLES]
  refine ⟨hb, t1, t2, t3, t4, t5, by omega, by omega, by omega, by omega, by simp [setup], ?_⟩
  intro hempty
  have hz : (setup s radar).baselineEnergy = 0 := by
    rw [hb]
    have hsum : ((List.range 15).map (fun k => calibrationSample (radar k))).sum = 0 := by
      apply List.sum_eq_zero
      intro x hx
      obtain ⟨k, hk, rfl⟩ := List.mem_map.mp hx
      rw [hempty k (List.mem_range.mp hk)]
      rfl
    rw [hsum]
    rfl
  omega

/-- Witness of C2: a radar port that never holds a byte during calibration. -/
theorem setup_calibration_witness :
    (setup initState (fun _ => [])).baselineEnergy = 0 ∧
      (setup initState (fun _ => [])).personThreshold 1 = 2000 ∧
      (setup initState (fun _ => [])).personThreshold 2 = 4000 ∧
      (setup initState (fun _ => [])).personThreshold 3 = 7000 ∧
      (setup initState (fun _ => [])).personThreshold 4 = 10000 ∧
      (setup initState (fun _ => [])).personThreshold 5 = 13000 :=
  (setup_calibration initState (fun _ => [])).2.2.2.2.2.2.2.2.2.2.2 (fun _ _ => rfl)

/-! ## Traces -/

theorem smsTexts_append (xs ys : List Effect) :
    smsTexts (xs ++ ys) = smsTexts xs ++ smsTexts ys := by
  induction xs with
  | nil => rfl
  | cons e rest ih => cases e <;> simp [smsTexts, ih]

theorem smsBatches_append (xs ys : List Effect) :
    smsBatches (xs ++ ys) = smsBatches xs + smsBatches ys := by
  simp [smsBatches, smsTexts_append]

theorem restoredNotices_append (xs ys : List Effect) :
    restoredNotices (xs ++ ys) = restoredNotices xs + restoredNotices ys := by
  simp [restoredNotices]

theorem runSeq_append {ι : Type} (step : State → ι → State × List Effect) (xs ys : List ι) :
    ∀ s : State, runSeq step s (xs ++ ys)
      = ((runSeq step (runSeq step s xs).1 ys).1,
         (runSeq step s xs).2 ++ (runSeq step (runSeq step s xs).1 ys).2) := by
  induction xs with
  | nil => intro s; simp [runSeq]
  | cons x rest ih => intro s; simp [runSeq, ih]

/-! ## Occupancy alerting -/

theorem humanCount_frame (s : State) (tGate tStamp : Nat) (radar : List UInt8) (gpsText : CStr) :
    (humanCount s tGate tStamp radar gpsText).1.calibrated = s.calibrated ∧
      (humanCount s tGate tStamp radar gpsText).1.baselineEnergy = s.baselineEnergy ∧
      (humanCount s tGate tStamp radar gpsText).1.personThreshold = s.personThreshold := by
  unfold humanCount classifyEnergy
  dsimp only
  split_ifs <;> simp

theorem humanCount_pending (s : State) (tGate tStamp : Nat) (radar : List UInt8) (gpsText : CStr)
    (hcal : s.calibrated = true) (hsum : drainRadar radar > s.baselineEnergy)
    (hsent : s.alertSent = true) :
    smsBatches (humanCount s tGate tStamp radar gpsText).2 = 0 ∧
      (humanCount s tGate tStamp radar gpsText).1.alertSent = true := by
  unfold humanCount classifyEnergy
  dsimp only
  split_ifs <;> simp_all [smsBatches, smsTexts]

theorem humanCount_batches (s : State) (tGate tStamp : Nat) (radar : List UInt8) (gpsText : CStr) :
    smsBatches (humanCount s tGate tStamp radar gpsText).2 = 0 ∨
      (smsBatches (humanCount s tGate tStamp radar gpsText).2 = 1 ∧ s.calibrated = true ∧
        (humanCount s tGate tStamp radar gpsText).1.alertSent = true) := by
  unfold humanCount classifyEnergy
  dsimp only
  split_ifs <;> simp_all [smsBatches, smsTexts]

theorem runSeq_humanCount_pending (runs : List CountInput) :
    ∀ s : State, s.calibrated = true → s.alertSent = true →
      (∀ r ∈ runs, drainRadar r.radar > s.baselineEnergy) →
      smsBatches (runSeq humanCountStep s runs).2 = 0 ∧
        (runSeq humanCountStep s runs).1.alertSent = true := by
  induction runs with
  | nil => intro s _ hsent _; simp [runSeq, smsBatches, smsTexts, hsent]
  | cons r rest ih =>
    intro s hcal hsent hall
    have hr := hall r (List.mem_cons_self _ _)
    obtain ⟨h0, h1⟩ := humanCount_pending s r.tGate r.tStamp r.radar r.gpsText hcal hr hsent
    obtain ⟨f1, f2, _⟩ := humanCount_frame s r.tGate r.tStamp r.radar r.gpsText
    have hrest := ih (humanCountStep s r).1 (by simpa [humanCountStep, hcal] using f1)
      (by simpa [humanCountStep] using h1)
      (fun q hq => by
        have := hall q (List.mem_cons_of_mem _ hq)
        simpa [humanCountStep, f2] using this)
    simp only [runSeq, smsBatches_append]
    refine ⟨?_, hrest.2⟩
    have h0' : smsBatches (humanCountStep s r).2 = 0 := h0
    omega

theorem runSeq_humanCount_le_one (runs : List CountInput) :
    ∀ s : State, (∀ r ∈ runs, drainRadar r.radar > s.baselineEnergy) →
      smsBatches (runSeq humanCountStep s runs).2 ≤ 1 := by
  induction runs with
  | nil => intro s _; simp [runSeq, smsBatches, smsTexts]
  | cons r rest ih =>
    intro s hall
    obtain ⟨f1, f2, _⟩ := humanCount_frame s r.tGate r.tStamp r.radar r.gpsText
    have hall' : ∀ q ∈ rest, drainRadar q.radar > (humanCountStep s r).1.baselineEnergy :=
      fun q hq => by
        have := hall q (List.mem_cons_of_mem _ hq)
        simpa [humanCountStep, f2] using this
    simp only [runSeq, smsBatches_append]
    rcases humanCount_batches s r.tGate r.tStamp r.radar r.gpsText with h0 | ⟨h1, hcal, hsent⟩
    · have h0' : smsBatches (humanCountStep s r).2 = 0 := h0
      have := ih (humanCountStep s r).1 hall'
      omega
    · have h1' : smsBatches (humanCountStep s r).2 = 1 := h1
      have hrest := runSeq_humanCount_pending rest (humanCountStep s r).1
        (by simpa [humanCountStep, hcal] using f1) (by simpa [humanCountStep] using hsent) hall'
      omega

/-- C3: in every sequence of executions of the occupancy block whose drained sums all
exceed `baselineEnergy`, at most one occupancy alert batch is dispatched in total; and
when an alert is already pending (`alertSent` true, sketch calibrated) no execution of
the sequence dispatches anything and `alertSent` is still true at the end, however
often a sum is repeated. -/
theorem occupancy_alert_dedup (s : State) (runs : List CountInput)
    (hsum : ∀ r ∈ runs, drainRadar r.radar > s.baselineEnergy) :
    smsBatches (runSeq humanCountStep s runs).2 ≤ 1 ∧
      (s.calibrated = true → s.alertSent = true →
        smsBatches (runSeq humanCountStep s runs).2 = 0 ∧
          (runSeq humanCountStep s runs).1.alertSent = true) :=
  ⟨runSeq_humanCount_le_one runs s hsum,
   fun hcal hsent => runSeq_humanCount_pending runs s hcal hsent hsum⟩

/-- Witness of C3: two executions with sum 6000 after a calibration at baseline 1000. -/
theorem occupancy_alert_dedup_witness :
    smsBatches (runSeq humanCountStep calibratedAt1000
      [⟨3000, 3000, radar6000, locationUnavailable⟩,
       ⟨6000, 6000, radar6000, locationUnavailable⟩]).2 ≤ 1 :=
  (occupancy_alert_dedup calibratedAt1000
    [⟨3000, 3000, radar6000, locationUnavailable⟩, ⟨6000, 6000, radar6000, locationUnavailable⟩]
    (by decide)).1

/-! ## Tamper detection -/

theorem wireBreakDetection_wireBroken (s : State) (w : Level) (g : CStr) :
    ((wireBreakDetection s w g).1.wireBroken = true ↔ w = Level.HIGH) := by
  unfold wireBreakDetection
  cases w <;> cases hb : s.wireBroken <;> simp [hb]

theorem wireBreakDetection_smsTexts (s : State) (w : Level) (g : CStr) :
    smsTexts (wireBreakDetection s w g).2
      = if w = Level.HIGH ∧ s.wireBroken = false then [wireCutAlert g] else [] := by
  unfold wireBreakDetection
  cases w <;> cases hb : s.wireBroken <;> simp [hb, smsTexts]

theorem wireBreakDetection_restoredNotices (s : State) (w : Level) (g : CStr) :
    restoredNotices (wireBreakDetection s w g).2
      = if w = Level.LOW ∧ s.wireBroken = true then 1 else 0 := by
  have hne : cstr "⚠ ALERT" ≠ cstr "Wire Restored" := by decide
  unfold wireBreakDetection
  cases w <;> cases hb : s.wireBroken <;> simp [hb, restoredNotices, List.count_cons, hne]

theorem wireBreakDetection_held (s : State) (w : Level) (g : CStr)
    (h : s.wireBroken = true ↔ w = Level.HIGH) : wireBreakDetection s w g = (s, []) := by
  unfold wireBreakDetection
  cases w <;> cases hb : s.wireBroken <;> simp_all

theorem runSeq_wireStep_held (w : Level) (rs : List WireInput) :
    ∀ s : State, (∀ r ∈ rs, r.wireState = w) → (s.wireBroken = true ↔ w = Level.HIGH) →
      runSeq wireStep s rs = (s, []) := by
  induction rs with
  | nil => intro s _ _; rfl
  | cons r rest ih =>
    intro s hall hs
    have hr := hall r (List.mem_cons_self _ _)
    have hstep : wireStep s r = (s, []) := by
      unfold wireStep
      exact wireBreakDetection_held s r.wireState r.gpsText (by rw [hr]; exact hs)
    simp only [runSeq, hstep, List.nil_append]
    exact ih s (fun q hq => hall q (List.mem_cons_of_mem _ hq)) hs

theorem runSeq_wireStep_edge (w : Level) (rs : List WireInput) (s : State)
    (hall : ∀ r ∈ rs, r.wireState = w) (hne : rs ≠ [])
    (hs : ¬ (s.wireBroken = true ↔ w = Level.HIGH)) :
    ((runSeq wireStep s rs).1.wireBroken = true ↔ w = Level.HIGH) ∧
      smsBatches (runSeq wireStep s rs).2 = (if w = Level.HIGH then 1 else 0) ∧
      restoredNotices (runSeq wireStep s rs).2 = (if w = Level.LOW then 1 else 0) := by
  cases rs with
  | nil => exact absurd rfl hne
  | cons r rest =>
    have hr := hall r (List.mem_cons_self _ _)
    have hb : (wireStep s r).1.wireBroken = true ↔ w = Level.HIGH := by
      unfold wireStep
      rw [hr]
      exact wireBreakDetection_wireBroken s w r.gpsText
    have hrest := runSeq_wireStep_held w rest (wireStep s r).1
      (fun q hq => hall q (List.mem_cons_of_mem _ hq)) hb
    have ht := wireBreakDetection_smsTexts s r.wireState r.gpsText
    have hn := wireBreakDetection_restoredNotices s r.wireState r.gpsText
    rw [hr] at ht hn
    simp only [runSeq, hrest, List.append_nil]
    refine ⟨hb, ?_, ?_⟩
    · simp only [smsBatches, wireStep, ht]
      cases w <;> cases hw : s.wireBroken <;> simp_all
    · simp only [wireStep, hn]
      cases w <;> cases hw : s.wireBroken <;> simp_all

theorem checkSafeButton_frame (s : State) (b : Level) (tPress tCheck : Nat) :
    (checkSafeButton s b tPress tCheck).1.wireBroken = s.wireBroken ∧
      (checkSafeButton s b tPress tCheck).1.alertSent = s.alertSent ∧
      (checkSafeButton s b tPress tCheck).1.lastRead = s.lastRead ∧
      (checkSafeButton s b tPress tCheck).1.calibrated = s.calibrated ∧
      (checkSafeButton s b tPress tCheck).1.baselineEnergy = s.baselineEnergy ∧
      (checkSafeButton s b tPress tCheck).1.personThreshold = s.personThreshold := by
  unfold checkSafeButton
  dsimp only
  split_ifs <;> simp

theorem humanCount_wireBroken (s : State) (tGate tStamp : Nat) (radar : List UInt8)
    (gpsText : CStr) :
    (humanCount s tGate tStamp radar gpsText).1.wireBroken = s.wireBroken := by
  unfold humanCount classifyEnergy
  dsimp only
  split_ifs <;> simp

/-- C4: the tamper block is an edge detector.  In any state, one execution dispatches
the cut alert (and only it) exactly when the wire reads HIGH and `wireBroken` was false,
emits the restored notice exactly when the wire reads LOW and `wireBroken` was true,
sends no SMS when the wire reads LOW, and leaves `wireBroken` true iff the wire read
HIGH; `checkSafeButton` does not touch `wireBroken` and after an ACTIVE cycle of `loop`
`wireBroken` is true iff the wire read HIGH.  Hence, starting from `wireBroken = false`,
any readings made of a run of LOW, a non-empty run of HIGH and a non-empty run of LOW
produce exactly one cut alert and exactly one restored notice. -/
theorem tamper_edge_detection :
    (∀ (s : State) (w : Level) (g : CStr),
      smsTexts (wireBreakDetection s w g).2
          = (if w = Level.HIGH ∧ s.wireBroken = false then [wireCutAlert g] else []) ∧
        restoredNotices (wireBreakDetection s w g).2
          = (if w = Level.LOW ∧ s.wireBroken = true then 1 else 0) ∧
        (w = Level.LOW → smsBatches (wireBreakDetection s w g).2 = 0) ∧
        ((wireBreakDetection s w g).1.wireBroken = true ↔ w = Level.HIGH)) ∧
    (∀ (s : State) (i : LoopInput),
      (checkSafeButton s i.btnState i.tPress i.tCheck).1.wireBroken = s.wireBroken ∧
        ((checkSafeButton s i.btnState i.tPress i.tCheck).1.safeMode = false →
          ((loop s i).1.wireBroken = true ↔ i.wireState = Level.HIGH))) ∧
    (∀ (s : State) (pre cut post : List WireInput),
      s.wireBroken = false →
      (∀ r ∈ pre, r.wireState = Level.LOW) → (∀ r ∈ cut, r.wireState = Level.HIGH) →
      (∀ r ∈ post, r.wireState = Level.LOW) → cut ≠ [] → post ≠ [] →
      smsBatches (runSeq wireStep s (pre ++ cut ++ post)).2 = 1 ∧
        restoredNotices (runSeq wireStep s (pre ++ cut ++ post)).2 = 1 ∧
        (runSeq wireStep s (pre ++ cut ++ post)).1.wireBroken = false) := by
  refine ⟨?_, ?_, ?_⟩
  · intro s w g
    refine ⟨wireBreakDetection_smsTexts s w g, wireBreakDetection_restoredNotices s w g, ?_,
      wireBreakDetection_wireBroken s w g⟩
    intro hw
    simp [smsBatches, wireBreakDetection_smsTexts, hw]
  · intro s i
    refine ⟨(checkSafeButton_frame s i.btnState i.tPress i.tCheck).1, ?_⟩
    intro hmode
    simp only [loop, hmode, Bool.false_eq_true, if_false, humanCount_wireBroken]
    exact wireBreakDetection_wireBroken _ _ _
  · intro s pre cut post hs hpre hcut hpost hcut0 hpost0
    have h1 := runSeq_wireStep_held Level.LOW pre s hpre (by simp [hs])
    have h2 := runSeq_wireStep_edge Level.HIGH cut s hcut hcut0 (by simp [hs])
    have h3 := runSeq_wireStep_edge Level.LOW post (runSeq wireStep s cut).1 hpost hpost0
      (by simp [h2.1])
    rw [List.append_assoc, runSeq_append, h1, runSeq_append]
    simp only [List.nil_append, smsBatches_append, restoredNotices_append]
    obtain ⟨_, h2b, h2c⟩ := h2
    obtain ⟨h3a, h3b, h3c⟩ := h3
    simp only [if_true, if_false, reduceCtorEq] at h2b h2c h3b h3c
    refine ⟨by omega, by omega, ?_⟩
    simpa using h3a

/-- Witness of C4: the readings LOW, LOW, HIGH, HIGH, LOW from the initial state give
exactly one cut alert and exactly one restored notice. -/
theorem tamper_edge_detection_witness :
    smsBatches (runSeq wireStep initState wireLLHHL).2 = 1 ∧
      restoredNotices (runSeq wireStep initState wireLLHHL).2 = 1 ∧
      (runSeq wireStep initState wireLLHHL).1.wireBroken = false :=
  tamper_edge_detection.2.2 initState
    [⟨Level.LOW, locationUnavailable⟩, ⟨Level.LOW, locationUnavailable⟩]
    [⟨Level.HIGH, locationUnavailable⟩, ⟨Level.HIGH, locationUnavailable⟩]
    [⟨Level.LOW, locationUnavailable⟩]
    rfl (by simp) (by simp) (by simp) (by simp) (by simp)

/-! ## Mode controller: one call -/

theorem checkSafeButton_low (s : State) (tPress tCheck : Nat) :
    checkSafeButton s Level.LOW tPress tCheck
      = if ¬ s.safeMode ∧ holdDuration s tPress tCheck ≥ 10000 then
          ({ s with buttonPressed := true, buttonPressStart := pressEdge s tPress,
                    safeMode := true },
           [Effect.digitalWrite Pin.BUZZER_PIN Level.LOW,
            Effect.serialPrintln (cstr "🔕 SAFE MODE ACTIVATED"),
            Effect.showMessage (cstr "SAFE MODE") (cstr "Band Off"),
            Effect.sendSMSToAll (cstr "🔕 Band Deactivated"), Effect.delay 1000])
        else if s.safeMode ∧ holdDuration s tPress tCheck ≥ 3000 ∧
            holdDuration s tPress tCheck < 10000 then
          ({ s with buttonPressed := true, buttonPressStart := pressEdge s tPress,
                    safeMode := false },
           [Effect.serialPrintln (cstr "✅ SAFE MODE DEACTIVATED"),
            Effect.showMessage (cstr "ACTIVE MODE") (cstr "Band On"),
            Effect.sendSMSToAll (cstr "✅ Band Reactivated"), Effect.delay 1000])
        else ({ s with buttonPressed := true, buttonPressStart := pressEdge s tPress }, []) := by
  obtain ⟨lr, bps, bp, sm, be, c, wb, a, pt⟩ := s
  cases bp <;> cases sm <;> simp [checkSafeButton, holdDuration, pressEdge] <;>
    split_ifs <;> simp_all <;> omega

theorem checkSafeButton_high (s : State) (tPress tCheck : Nat) :
    checkSafeButton s Level.HIGH tPress tCheck = ({ s with buttonPressed := false }, []) := by
  obtain ⟨lr, bps, bp, sm, be, c, wb, a, pt⟩ := s
  cases bp <;> simp [checkSafeButton]

/-- C5: a call of `checkSafeButton` in ACTIVE mode that reads the button held, `d` being
the time elapsed since the press-down edge, switches to SAFE iff `d >= 10000`; it then
dispatches exactly one batch, "Band Deactivated", and writes the buzzer LOW; when
`d < 10000` the mode stays ACTIVE and the call does nothing observable.  A call that
reads the button released leaves the mode ACTIVE and does nothing observable. -/
theorem active_to_safe (s : State) (tPress tCheck : Nat) (hmode : s.safeMode = false) :
    ((checkSafeButton s Level.LOW tPress tCheck).1.safeMode = true
        ↔ holdDuration s tPress tCheck ≥ 10000) ∧
      (holdDuration s tPress tCheck ≥ 10000 →
        smsTexts (checkSafeButton s Level.LOW tPress tCheck).2 = [cstr "🔕 Band Deactivated"] ∧
          Effect.digitalWrite Pin.BUZZER_PIN Level.LOW
            ∈ (checkSafeButton s Level.LOW tPress tCheck).2) ∧
      (holdDuration s tPress tCheck < 10000 →
        (checkSafeButton s Level.LOW tPress tCheck).1.safeMode = false ∧
          (checkSafeButton s Level.LOW tPress tCheck).2 = []) ∧
      ((checkSafeButton s Level.HIGH tPress tCheck).1.safeMode = false ∧
        (checkSafeButton s Level.HIGH tPress tCheck).2 = []) := by
  rw [checkSafeButton_low, checkSafeButton_high]
  by_cases hd : holdDuration s tPress tCheck ≥ 10000
  · have hlt : ¬ holdDuration s tPress tCheck < 10000 := by omega
    simp [hmode, hd, hlt, smsTexts]
  · have hlt : holdDuration s tPress tCheck < 10000 := by omega
    simp [hmode, hd, hlt]

/-- Witness of C5: a hold evaluated at exactly 10000 ms in ACTIVE mode. -/
theorem active_to_safe_witness :
    (checkSafeButton heldActive Level.LOW 15000 15000).1.safeMode = true ∧
      smsTexts (checkSafeButton heldActive Level.LOW 15000 15000).2
        = [cstr "🔕 Band Deactivated"] :=
  ⟨(active_to_safe heldActive 15000 15000 rfl).1.mpr (by decide),
   ((active_to_safe heldActive 15000 15000 rfl).2.1 (by decide)).1⟩

/-- C6: a call of `checkSafeButton` in SAFE mode that reads the button held, `d` being the
time elapsed since the press-down edge, switches to ACTIVE iff `3000 <= d < 10000`; it
then dispatches exactly one batch, "Band Reactivated"; when `d < 3000` or `d >= 10000`
the mode stays SAFE and the call does nothing observable. -/
theorem safe_to_active (s : State) (tPress tCheck : Nat) (hmode : s.safeMode = true) :
    ((checkSafeButton s Level.LOW tPress tCheck).1.safeMode = false
        ↔ (3000 ≤ holdDuration s tPress tCheck ∧ holdDuration s tPress tCheck < 10000)) ∧
      (3000 ≤ holdDuration s tPress tCheck → holdDuration s tPress tCheck < 10000 →
        smsTexts (checkSafeButton s Level.LOW tPress tCheck).2 = [cstr "✅ Band Reactivated"]) ∧
      (holdDuration s tPress tCheck < 3000 ∨ holdDuration s tPress tCheck ≥ 10000 →
        (checkSafeButton s Level.LOW tPress tCheck).1.safeMode = true ∧
          (checkSafeButton s Level.LOW tPress tCheck).2 = []) := by
  rw [checkSafeButton_low]
  by_cases hd : 3000 ≤ holdDuration s tPress tCheck ∧ holdDuration s tPress tCheck < 10000
  · have h1 : ¬ holdDuration s tPress tCheck < 3000 := by omega
    have h2 : ¬ holdDuration s tPress tCheck ≥ 10000 := by omega
    simp [hmode, hd, h1, smsTexts]
  · have h3 : holdDuration s tPress tCheck < 3000 ∨ holdDuration s tPress tCheck ≥ 10000 := by
      omega
    simp only [hmode, not_true_eq_false, false_and, if_false, true_and]
    rw [if_neg (by omega)]
    simp [hmode, hd]
    omega

/-- Witness of C6: a hold evaluated at 3000 ms in SAFE mode. -/
theorem safe_to_active_witness :
    (checkSafeButton heldSafe Level.LOW 8000 8000).1.safeMode = false ∧
      smsTexts (checkSafeButton heldSafe Level.LOW 8000 8000).2 = [cstr "✅ Band Reactivated"] :=
  ⟨(safe_to_active heldSafe 8000 8000 rfl).1.mpr (by decide),
   (safe_to_active heldSafe 8000 8000 rfl).2.1 (by decide) (by decide)⟩

/-! ## Mode controller: sequences of calls -/

theorem subULong_eq_sub (a b : Nat) (hba : b ≤ a) (ha : a < 4294967296) :
    subULong a b = a - b := by
  unfold subULong
  omega

theorem checkSafeButton_low_pressed (s : State) (tPress tCheck : Nat)
    (hp : s.buttonPressed = true) :
    checkSafeButton s Level.LOW tPress tCheck
      = if ¬ s.safeMode ∧ subULong tCheck s.buttonPressStart ≥ 10000 then
          ({ s with safeMode := true },
           [Effect.digitalWrite Pin.BUZZER_PIN Level.LOW,
            Effect.serialPrintln (cstr "🔕 SAFE MODE ACTIVATED"),
            Effect.showMessage (cstr "SAFE MODE") (cstr "Band Off"),
            Effect.sendSMSToAll (cstr "🔕 Band Deactivated"), Effect.delay 1000])
        else if s.safeMode ∧ subULong tCheck s.buttonPressStart ≥ 3000 ∧
            subULong tCheck s.buttonPressStart < 10000 then
          ({ s with safeMode := false },
           [Effect.serialPrintln (cstr "✅ SAFE MODE DEACTIVATED"),
            Effect.showMessage (cstr "ACTIVE MODE") (cstr "Band On"),
            Effect.sendSMSToAll (cstr "✅ Band Reactivated"), Effect.delay 1000])
        else (s, []) := by
  rw [checkSafeButton_low]
  obtain ⟨lr, bps, bp, sm, be, c, wb, a, pt⟩ := s
  simp only at hp
  subst hp
  simp [holdDuration, pressEdge]

theorem checkSafeButton_low_edge (s : State) (tPress tCheck : Nat)
    (hp : s.buttonPressed = false) :
    checkSafeButton s Level.LOW tPress tCheck
      = checkSafeButton { s with buttonPressed := true, buttonPressStart := tPress }
          Level.LOW tPress tCheck := by
  rw [checkSafeButton_low, checkSafeButton_low]
  simp [holdDuration, pressEdge, hp]

/-- Once the mode is SAFE and every remaining evaluation of the hold is at 10000 ms or
more, nothing fires any more. -/
theorem held_safe_quiet (calls : List ButtonCall) :
    ∀ s : State, s.buttonPressed = true → s.safeMode = true →
      (∀ c ∈ calls, c.btnState = Level.LOW ∧ subULong c.tCheck s.buttonPressStart ≥ 10000) →
      modeChanges s calls = 0 ∧ smsBatches (runSeq buttonStep s calls).2 = 0 := by
  induction calls with
  | nil => intro s _ _ _; simp [modeChanges, runSeq, smsBatches, smsTexts]
  | cons c rest ih =>
    intro s hp hm hall
    obtain ⟨hlow, hd⟩ := hall c (List.mem_cons_self _ _)
    have hstep : buttonStep s c = (s, []) := by
      unfold buttonStep
      rw [hlow, checkSafeButton_low_pressed s _ _ hp]
      have h1 : ¬ subULong c.tCheck s.buttonPressStart < 10000 := by omega
      simp [hm, h1]
    have hrest := ih s hp hm (fun q hq => hall q (List.mem_cons_of_mem _ hq))
    simp only [modeChanges, runSeq, hstep, List.nil_append, if_true]
    omega

/-- In ACTIVE mode a hold in progress fires at most once. -/
theorem held_active_le_one (calls : List ButtonCall) :
    ∀ s : State, s.buttonPressed = true → s.safeMode = false →
      (∀ c ∈ calls, c.btnState = Level.LOW) →
      (calls.map (fun k => k.tCheck)).Pairwise (· ≤ ·) →
      (∀ c ∈ calls, s.buttonPressStart ≤ c.tCheck ∧ c.tCheck < 4294967296) →
      modeChanges s calls ≤ 1 ∧ smsBatches (runSeq buttonStep s calls).2 ≤ 1 := by
  induction calls with
  | nil => intro s _ _ _ _ _; simp [modeChanges, runSeq, smsBatches, smsTexts]
  | cons c rest ih =>
    intro s hp hm hlow hsorted hrange
    have hc := hlow c (List.mem_cons_self _ _)
    obtain ⟨hge, hlt⟩ := hrange c (List.mem_cons_self _ _)
    rw [List.map_cons, List.pairwise_cons] at hsorted
    obtain ⟨hhead, htail⟩ := hsorted
    have hlow' : ∀ q ∈ rest, q.btnState = Level.LOW :=
      fun q hq => hlow q (List.mem_cons_of_mem _ hq)
    have hrange' : ∀ q ∈ rest, s.buttonPressStart ≤ q.tCheck ∧ q.tCheck < 4294967296 :=
      fun q hq => hrange q (List.mem_cons_of_mem _ hq)
    by_cases hd : subULong c.tCheck s.buttonPressStart ≥ 10000
    · have hstep : buttonStep s c
          = ({ s with safeMode := true },
             [Effect.digitalWrite Pin.BUZZER_PIN Level.LOW,
              Effect.serialPrintln (cstr "🔕 SAFE MODE ACTIVATED"),
              Effect.showMessage (cstr "SAFE MODE") (cstr "Band Off"),
              Effect.sendSMSToAll (cstr "🔕 Band Deactivated"), Effect.delay 1000]) := by
        unfold buttonStep
        rw [hc, checkSafeButton_low_pressed s _ _ hp]
        simp [hm, hd]
      have hquiet := held_safe_quiet rest { s with safeMode := true } hp rfl (fun q hq => by
        refine ⟨hlow' q hq, ?_⟩
        have h1 : c.tCheck ≤ q.tCheck := hhead q.tCheck (List.mem_map.mpr ⟨q, hq, rfl⟩)
        have h2 := (hrange' q hq).2
        have e1 := subULong_eq_sub c.tCheck s.buttonPressStart hge hlt
        have e2 := subULong_eq_sub q.tCheck s.buttonPressStart (by omega) h2
        show subULong q.tCheck s.buttonPressStart ≥ 10000
        omega)
      simp only [modeChanges, runSeq, hstep, smsBatches_append, hm]
      simp only [smsBatches, smsTexts, List.length_cons, List.length_nil] at hquiet ⊢
      simp only [Bool.true_eq_false, if_false]
      omega
    · have hstep : buttonStep s c = (s, []) := by
        unfold buttonStep
        rw [hc, checkSafeButton_low_pressed s _ _ hp]
        simp [hm, hd]
      have hrest := ih s hp hm hlow' htail hrange'
      simp only [modeChanges, runSeq, hstep, List.nil_append, if_true]
      omega

/-- In SAFE mode a hold in progress fires at most twice. -/
theorem held_safe_le_two (calls : List ButtonCall) :
    ∀ s : State, s.buttonPressed = true → s.safeMode = true →
      (∀ c ∈ calls, c.btnState = Level.LOW) →
      (calls.map (fun k => k.tCheck)).Pairwise (· ≤ ·) →
      (∀ c ∈ calls, s.buttonPressStart ≤ c.tCheck ∧ c.tCheck < 4294967296) →
      modeChanges s calls ≤ 2 ∧ smsBatches (runSeq buttonStep s calls).2 ≤ 2 := by
  induction calls with
  | nil => intro s _ _ _ _ _; simp [modeChanges, runSeq, smsBatches, smsTexts]
  | cons c rest ih =>
    intro s hp hm hlow hsorted hrange
    have hc := hlow c (List.mem_cons_self _ _)
    rw [List.map_cons, List.pairwise_cons] at hsorted
    obtain ⟨_, htail⟩ := hsorted
    have hlow' : ∀ q ∈ rest, q.btnState = Level.LOW :=
      fun q hq => hlow q (List.mem_cons_of_mem _ hq)
    have hrange' : ∀ q ∈ rest, s.buttonPressStart ≤ q.tCheck ∧ q.tCheck < 4294967296 :=
      fun q hq => hrange q (List.mem_cons_of_mem _ hq)
    by_cases hd : subULong c.tCheck s.buttonPressStart ≥ 3000 ∧
        subULong c.tCheck s.buttonPressStart < 10000
    · have hstep : buttonStep s c
          = ({ s with safeMode := false },
             [Effect.serialPrintln (cstr "✅ SAFE MODE DEACTIVATED"),
              Effect.showMessage (cstr "ACTIVE MODE") (cstr "Band On"),
              Effect.sendSMSToAll (cstr "✅ Band Reactivated"), Effect.delay 1000]) := by
        unfold buttonStep
        rw [hc, checkSafeButton_low_pressed s _ _ hp]
        simp [hm, hd]
      have hrest := held_active_le_one rest { s with safeMode := false } hp rfl hlow' htail hrange'
      simp only [modeChanges, runSeq, hstep, smsBatches_append, hm]
      simp only [smsBatches, smsTexts, List.length_cons, List.length_nil] at hrest ⊢
      simp only [Bool.false_eq_true, if_false]
      omega
    · have hstep : buttonStep s c = (s, []) := by
        unfold buttonStep
        rw [hc, checkSafeButton_low_pressed s _ _ hp]
        simp [hm, hd]
      have hrest := ih s hp hm hlow' htail hrange'
      simp only [modeChanges, runSeq, hstep, List.nil_append, if_true]
      omega

/-- The first call of a hold, which sees the press-down edge, behaves as a call made
with the press already recorded at `tPress`. -/
theorem hold_from_edge (s : State) (c : ButtonCall) (rest : List ButtonCall)
    (hp : s.buttonPressed = false) (hc : c.btnState = Level.LOW) :
    modeChanges s (c :: rest)
        = modeChanges { s with buttonPressed := true, buttonPressStart := c.tPress } (c :: rest) ∧
      runSeq buttonStep s (c :: rest)
        = runSeq buttonStep { s with buttonPressed := true, buttonPressStart := c.tPress }
            (c :: rest) := by
  have hstep : buttonStep s c
      = buttonStep { s with buttonPressed := true, buttonPressStart := c.tPress } c := by
    unfold buttonStep
    rw [hc, checkSafeButton_low_edge s _ _ hp]
  simp only [modeChanges, runSeq, hstep]
  simp

/-- C7, counterexample: one continuous hold that starts in SAFE mode (button `LOW` at
every call, non-decreasing clock readings, one press-down edge) fires two mode
transitions and dispatches two notification batches: SAFE to ACTIVE when evaluated at
3000 ms, then ACTIVE to SAFE when evaluated at 16000 ms. -/
theorem hold_fires_twice :
    safeIdle.buttonPressed = false ∧
      longHold.all (fun c => decide (c.btnState = Level.LOW)) = true ∧
      (holdTimes longHold).Pairwise (· ≤ ·) ∧
      modeChanges safeIdle longHold = 2 ∧
      smsTexts (runSeq buttonStep safeIdle longHold).2
        = [cstr "✅ Band Reactivated", cstr "🔕 Band Deactivated"] ∧
      ¬ (modeChanges safeIdle longHold ≤ 1 ∧
          smsBatches (runSeq buttonStep safeIdle longHold).2 ≤ 1) := by
  decide

/-- C7, amended: during one continuous hold (button `LOW` at every call, the first call
seeing the press-down edge, non-decreasing clock readings) a hold that starts in ACTIVE
mode changes the mode at most once and dispatches at most one notification batch; a hold
that starts in SAFE mode changes the mode at most twice and dispatches at most two. -/
theorem hold_transitions (s : State) (calls : List ButtonCall)
    (hedge : s.buttonPressed = false)
    (hlow : ∀ c ∈ calls, c.btnState = Level.LOW)
    (hsorted : (holdTimes calls).Pairwise (· ≤ ·))
    (hrange : ∀ t ∈ holdTimes calls, t < 4294967296) :
    (s.safeMode = false →
      modeChanges s calls ≤ 1 ∧ smsBatches (runSeq buttonStep s calls).2 ≤ 1) ∧
    (s.safeMode = true →
      modeChanges s calls ≤ 2 ∧ smsBatches (runSeq buttonStep s calls).2 ≤ 2) := by
  cases calls with
  | nil => simp [modeChanges, runSeq, smsBatches, smsTexts]
  | cons c rest =>
    have hc := hlow c (List.mem_cons_self _ _)
    obtain ⟨e1, e2⟩ := hold_from_edge s c rest hedge hc
    rw [e1, e2]
    simp only [holdTimes, List.pairwise_cons] at hsorted
    obtain ⟨hfirst, hhead, htail⟩ := hsorted
    have hsorted' : ((c :: rest).map (fun k => k.tCheck)).Pairwise (· ≤ ·) := by
      rw [List.map_cons, List.pairwise_cons]
      exact ⟨hhead, htail⟩
    have hrange' : ∀ q ∈ c :: rest,
        ({ s with buttonPressed := true, buttonPressStart := c.tPress } : State).buttonPressStart
            ≤ q.tCheck ∧ q.tCheck < 4294967296 := by
      intro q hq
      have hmem : q.tCheck ∈ c.tCheck :: rest.map (fun k => k.tCheck) := by
        rw [← List.map_cons (fun k : ButtonCall => k.tCheck)]
        exact List.mem_map.mpr ⟨q, hq, rfl⟩
      refine ⟨hfirst q.tCheck hmem, ?_⟩
      exact hrange q.tCheck (by simp only [holdTimes]; exact List.mem_cons_of_mem _ hmem)
    constructor
    · intro hm
      exact held_active_le_one (c :: rest) _ rfl hm hlow hsorted' hrange'
    · intro hm
      exact held_safe_le_two (c :: rest) _ rfl hm hlow hsorted' hrange'

/-- Witness of C7 (amended): the three-call hold from SAFE mode stays within two
transitions. -/
theorem hold_transitions_witness :
    modeChanges safeIdle longHold ≤ 2 ∧ smsBatches (runSeq buttonStep safeIdle longHold).2 ≤ 2 :=
  (hold_transitions safeIdle longHold rfl (by decide) (by decide) (by decide)).2 rfl

/-- Reading of `shortHolds` on a single run: when every call reads `LOW` and the run
started at clock reading `e`, the condition says that every call evaluates the hold
less than `limit` ms after `e`. -/
theorem shortHolds_single_run (limit e : Nat) (calls : List ButtonCall)
    (hlow : ∀ c ∈ calls, c.btnState = Level.LOW) :
    shortHolds limit (some e) calls = true ↔ ∀ c ∈ calls, subULong c.tCheck e < limit := by
  induction calls with
  | nil => simp [shortHolds]
  | cons c rest ih =>
    have hc := hlow c (List.mem_cons_self _ _)
    have ih' := ih (fun q hq => hlow q (List.mem_cons_of_mem _ hq))
    simp only [shortHolds, hc, Option.getD_some, Bool.and_eq_true, decide_eq_true_eq, ih',
      List.forall_mem_cons]

theorem runSeq_buttonStep_shortHolds (calls : List ButtonCall) :
    ∀ s : State, shortHolds (holdLimit s) (pendingEdge s) calls = true →
      (runSeq buttonStep s calls).1.safeMode = s.safeMode ∧ modeChanges s calls = 0 ∧
        (runSeq buttonStep s calls).2 = [] := by
  induction calls with
  | nil => intro s _; simp [runSeq, modeChanges]
  | cons c rest ih =>
    intro s hshort
    cases hb : c.btnState with
    | HIGH =>
      have hstep : buttonStep s c = ({ s with buttonPressed := false }, []) := by
        unfold buttonStep
        rw [hb, checkSafeButton_high]
      simp only [shortHolds, hb] at hshort
      have hrest := ih { s with buttonPressed := false } (by
        simpa [holdLimit, pendingEdge] using hshort)
      simp only [runSeq, modeChanges, hstep, List.nil_append, if_true]
      simpa using hrest
    | LOW =>
      simp only [shortHolds, hb, Bool.and_eq_true, decide_eq_true_eq] at hshort
      obtain ⟨hd, hrest⟩ := hshort
      have hedge : (pendingEdge s).getD c.tPress = pressEdge s c.tPress := by
        unfold pendingEdge pressEdge
        cases s.buttonPressed <;> simp
      rw [hedge] at hd hrest
      have hstep : buttonStep s c
          = ({ s with buttonPressed := true, buttonPressStart := pressEdge s c.tPress }, []) := by
        unfold buttonStep
        rw [hb, checkSafeButton_low]
        unfold holdLimit at hd
        unfold holdDuration
        cases hm : s.safeMode
        · rw [hm] at hd
          have h1 : ¬ subULong c.tCheck (pressEdge s c.tPress) ≥ 10000 := by
            simp only [Bool.false_eq_true, if_false] at hd
            omega
          simp [h1]
        · rw [hm] at hd
          have h1 : ¬ subULong c.tCheck (pressEdge s c.tPress) ≥ 3000 := by
            simp only [if_true] at hd
            omega
          simp [h1]
      have hrest' := ih { s with buttonPressed := true, buttonPressStart := pressEdge s c.tPress }
        (by simpa [holdLimit, pendingEdge] using hrest)
      simp only [runSeq, modeChanges, hstep, List.nil_append, if_true]
      simpa using hrest'

/-- C8: a call of `checkSafeButton` that reads the button HIGH clears `buttonPressed`,
keeps the mode and does nothing observable, and the next call that reads LOW stores its
own clock reading in `buttonPressStart`; hence in every sequence of calls in which each
maximal run of LOW readings spans less than 10000 ms (ACTIVE) or 3000 ms (SAFE), the
mode never changes and nothing is dispatched, however long the presses are in total. -/
theorem release_discards_timer :
    (∀ (s : State) (tPress tCheck : Nat),
      (checkSafeButton s Level.HIGH tPress tCheck).1.buttonPressed = false ∧
        (checkSafeButton s Level.HIGH tPress tCheck).1.safeMode = s.safeMode ∧
        (checkSafeButton s Level.HIGH tPress tCheck).2 = []) ∧
    (∀ (s : State) (tPress tCheck tPress2 tCheck2 : Nat),
      (checkSafeButton (checkSafeButton s Level.HIGH tPress tCheck).1 Level.LOW tPress2
          tCheck2).1.buttonPressStart = tPress2 ∧
        (checkSafeButton (checkSafeButton s Level.HIGH tPress tCheck).1 Level.LOW tPress2
          tCheck2).1.buttonPressed = true) ∧
    (∀ (s : State) (calls : List ButtonCall),
      shortHolds (holdLimit s) (pendingEdge s) calls = true →
        (runSeq buttonStep s calls).1.safeMode = s.safeMode ∧ modeChanges s calls = 0 ∧
          (runSeq buttonStep s calls).2 = []) := by
  refine ⟨?_, ?_, ?_⟩
  · intro s tPress tCheck
    rw [checkSafeButton_high]
    simp
  · intro s tPress tCheck tPress2 tCheck2
    rw [checkSafeButton_high, checkSafeButton_low]
    simp only [pressEdge]
    split_ifs <;> simp_all
  · intro s calls h
    exact runSeq_buttonStep_shortHolds calls s h

/-- Witness of C8: two presses of 9999 ms each in ACTIVE mode, 19998 ms in total, leave
the mode ACTIVE. -/
theorem release_discards_timer_witness :
    (runSeq buttonStep initState twoShortPresses).1.safeMode = false ∧
      modeChanges initState twoShortPresses = 0 ∧
      (runSeq buttonStep initState twoShortPresses).2 = [] :=
  release_discards_timer.2.2 initState twoShortPresses (by decide)

/-! ## Occupancy alerting: clearing of the flag and the end-to-end scenario -/

theorem humanCount_run (s : State) (tGate tStamp : Nat) (radar : List UInt8) (gpsText : CStr)
    (hgate : subULong tGate s.lastRead > 2000) :
    humanCount s tGate tStamp radar gpsText
      = classifyEnergy { s with lastRead := tStamp } (drainRadar radar) gpsText := by
  unfold humanCount
  rw [if_pos hgate]

/-- C9: an execution of the occupancy block (gate passed) whose sum is at or below
`baselineEnergy`, or that runs while `calibrated` is false, does nothing observable and
leaves `alertSent` false; one whose sum exceeds `baselineEnergy` with `calibrated` true
never turns `alertSent` from true to false, and with a count below 3 it dispatches
nothing and leaves `alertSent` as it was.  So a pending flag is cleared exactly by an
empty reading. -/
theorem alertSent_cleared_by_empty (s : State) (tGate tStamp : Nat) (radar : List UInt8)
    (gpsText : CStr) (hgate : subULong tGate s.lastRead > 2000) :
    ((s.calibrated = false ∨ drainRadar radar ≤ s.baselineEnergy) →
      (humanCount s tGate tStamp radar gpsText).2 = [] ∧
        (humanCount s tGate tStamp radar gpsText).1.alertSent = false) ∧
    (s.calibrated = true → drainRadar radar > s.baselineEnergy → s.alertSent = true →
      (humanCount s tGate tStamp radar gpsText).1.alertSent = true) ∧
    (s.calibrated = true → drainRadar radar > s.baselineEnergy →
      estimateHumans s.personThreshold (drainRadar radar) < 3 →
      smsTexts (humanCount s tGate tStamp radar gpsText).2 = [] ∧
        (humanCount s tGate tStamp radar gpsText).1.alertSent = s.alertSent) ∧
    (s.alertSent = true →
      ((humanCount s tGate tStamp radar gpsText).1.alertSent = false ↔
        (s.calibrated = false ∨ drainRadar radar ≤ s.baselineEnergy))) := by
  rw [humanCount_run s tGate tStamp radar gpsText hgate]
  unfold classifyEnergy
  dsimp only
  refine ⟨?_, ?_, ?_, ?_⟩
  · intro h
    have hc : ¬ (s.calibrated = true ∧ drainRadar radar > s.baselineEnergy) := by
      rcases h with h | h
      · simp [h]
      · intro hx
        omega
    rw [if_neg hc]
    simp
  · intro hcal hsum hsent
    rw [if_pos ⟨hcal, hsum⟩]
    split_ifs <;> simp [hsent]
  · intro hcal hsum hcount
    rw [if_pos ⟨hcal, hsum⟩]
    have hc : ¬ (estimateHumans s.personThreshold (drainRadar radar) ≥ 3 ∧ ¬ s.alertSent = true) := by
      intro hx
      omega
    rw [if_neg hc]
    simp [smsTexts]
  · intro hsent
    by_cases hc : s.calibrated = true ∧ drainRadar radar > s.baselineEnergy
    · rw [if_pos hc]
      have h1 : ¬ (s.calibrated = false ∨ drainRadar radar ≤ s.baselineEnergy) := by
        intro hx
        rcases hx with hx | hx
        · simp [hc.1] at hx
        · omega
      split_ifs <;> simp [hsent, h1]
    · rw [if_neg hc]
      have h1 : s.calibrated = false ∨ drainRadar radar ≤ s.baselineEnergy := by
        by_cases hcal : s.calibrated = true
        · right
          have : ¬ drainRadar radar > s.baselineEnergy := fun hx => hc ⟨hcal, hx⟩
          omega
        · left
          simpa using hcal
      simp [h1]

/-- Witness of C9: with an alert pending at baseline 1000, an execution that drains a
sum of 500 clears the flag and dispatches nothing. -/
theorem alertSent_cleared_by_empty_witness :
    (humanCount alertPending 3000 3000 radar500 locationUnavailable).2 = [] ∧
      (humanCount alertPending 3000 3000 radar500 locationUnavailable).1.alertSent = false :=
  (alertSent_cleared_by_empty alertPending 3000 3000 radar500 locationUnavailable
    (by decide)).1 (Or.inr (by decide))

theorem peopleAlert_three (gpsText : CStr) :
    peopleAlert 3 gpsText = cstr "🚨 3 people! " ++ gpsText.take 104 := by
  have hp : cstr "🚨 " ++ fmtInt 3 ++ cstr " people! " = cstr "🚨 3 people! " := by decide
  have hl : (cstr "🚨 3 people! ").length = 15 := by decide
  unfold peopleAlert snprintf
  rw [hp, List.take_append_eq_append_take, hl,
    List.take_of_length_le (by omega : (cstr "🚨 3 people! ").length ≤ 120 - 1)]

/-- C10: end-to-end scenario.  When the calibration of `setup` yields `baselineEnergy`
1000, the thresholds are 3000, 5000, 8000, 11000, 14000.  From a state with these
calibration values and `alertSent` false, three successive executions of the occupancy
block draining the sums 6000, 6000 and 500 behave as follows: the first estimates 3
occupants, asks the resolver for the location once and dispatches exactly one batch,
whose text is "🚨 3 people! " followed by the resolver string (whole when it has at most
104 bytes, as the placeholder and every map link have), so it contains "3" and the
location string; the second dispatches nothing; the third does nothing observable and
leaves `alertSent` false. -/
theorem end_to_end_scenario (s0 : State) (radar0 : Nat → List UInt8) (s : State)
    (r1 r2 r3 : CountInput)
    (hbase : (setup s0 radar0).baselineEnergy = 1000)
    (hsb : s.baselineEnergy = 1000) (hsc : s.calibrated = true)
    (hst : s.personThreshold = (setup s0 radar0).personThreshold)
    (hsent : s.alertSent = false)
    (hg1 : subULong r1.tGate s.lastRead > 2000)
    (hg2 : subULong r2.tGate r1.tStamp > 2000)
    (hg3 : subULong r3.tGate r2.tStamp > 2000)
    (h1 : drainRadar r1.radar = 6000) (h2 : drainRadar r2.radar = 6000)
    (h3 : drainRadar r3.radar = 500) :
    ((setup s0 radar0).personThreshold 1 = 3000 ∧ (setup s0 radar0).personThreshold 2 = 5000 ∧
      (setup s0 radar0).personThreshold 3 = 8000 ∧ (setup s0 radar0).personThreshold 4 = 11000 ∧
      (setup s0 radar0).personThreshold 5 = 14000) ∧
    estimateHumans s.personThreshold (drainRadar r1.radar) = 3 ∧
    (smsTexts (humanCountStep s r1).2 = [cstr "🚨 3 people! " ++ r1.gpsText.take 104] ∧
      Effect.getGPSLocation r1.gpsText ∈ (humanCountStep s r1).2 ∧
      cstr "3" <:+: cstr "🚨 3 people! " ++ r1.gpsText.take 104 ∧
      (r1.gpsText.length ≤ 104 →
        smsTexts (humanCountStep s r1).2 = [cstr "🚨 3 people! " ++ r1.gpsText] ∧
          r1.gpsText <:+: cstr "🚨 3 people! " ++ r1.gpsText)) ∧
    smsTexts (humanCountStep (humanCountStep s r1).1 r2).2 = [] ∧
    ((humanCountStep (humanCountStep (humanCountStep s r1).1 r2).1 r3).2 = [] ∧
      (humanCountStep (humanCountStep (humanCountStep s r1).1 r2).1 r3).1.alertSent = false) := by
  obtain ⟨_, t1, t2, t3, t4, t5⟩ := setup_personThreshold s0 radar0
  rw [hbase] at t1 t2 t3 t4 t5
  norm_num at t1 t2 t3 t4 t5
  have hcount : estimateHumans s.personThreshold 6000 = 3 := by
    simp [estimateHumans, hst, t1, t2, t3]
  -- first execution
  have e1 : humanCountStep s r1
      = ({ s with lastRead := r1.tStamp, alertSent := true },
         [Effect.serialPrint (cstr "👥 Humans: "), Effect.serialPrintln (fmtInt 3),
          Effect.showMessage (cstr "People Nearby") (cstr "Multiple"),
          Effect.getGPSLocation r1.gpsText,
          Effect.sendSMSToAll (peopleAlert 3 r1.gpsText)]) := by
    unfold humanCountStep
    rw [humanCount_run s _ _ _ _ hg1, h1]
    simp [classifyEnergy, hsc, hsb, hcount, hsent]
  -- second execution
  have e2 : humanCountStep { s with lastRead := r1.tStamp, alertSent := true } r2
      = ({ s with lastRead := r2.tStamp, alertSent := true },
         [Effect.serialPrint (cstr "👥 Humans: "), Effect.serialPrintln (fmtInt 3),
          Effect.showMessage (cstr "People Nearby") (cstr "Multiple")]) := by
    unfold humanCountStep
    rw [humanCount_run _ _ _ _ _ hg2, h2]
    simp [classifyEnergy, hsc, hsb, hcount]
  -- third execution
  have e3 : humanCountStep { s with lastRead := r2.tStamp, alertSent := true } r3
      = ({ s with lastRead := r3.tStamp, alertSent := false }, []) := by
    unfold humanCountStep
    rw [humanCount_run _ _ _ _ _ hg3, h3]
    simp [classifyEnergy, hsc, hsb]
  rw [e1]
  dsimp only
  rw [e2]
  dsimp only
  rw [e3]
  refine ⟨⟨t1, t2, t3, t4, t5⟩, by rw [h1]; exact hcount, ⟨?_, ?_, ?_, ?_⟩, ?_, ?_⟩
  · simp [smsTexts, peopleAlert_three]
  · simp
  · have hp : cstr "🚨 3 people! " = cstr "🚨 " ++ cstr "3" ++ cstr " people! " := by decide
    rw [hp, List.append_assoc]
    exact List.infix_append _ _ _
  · intro hlen
    refine ⟨by simp [smsTexts, peopleAlert_three, List.take_of_length_le hlen], ?_⟩
    exact (List.suffix_append _ _).isInfix
  · simp [smsTexts]
  · simp

/-- Witness of C10: calibration on 15 samples of 1000, then sums 6000, 6000, 500 with
the resolver returning the placeholder. -/
theorem end_to_end_scenario_witness :
    smsTexts (humanCountStep calibratedAt1000 ⟨3000, 3000, radar6000, locationUnavailable⟩).2
        = [cstr "🚨 3 people! Location Unavailable"] ∧
      smsTexts (humanCountStep
        (humanCountStep calibratedAt1000 ⟨3000, 3000, radar6000, locationUnavailable⟩).1
        ⟨6000, 6000, radar6000, locationUnavailable⟩).2 = [] :=
  ⟨((end_to_end_scenario initState (fun _ => List.replicate 4 250) calibratedAt1000
      ⟨3000, 3000, radar6000, locationUnavailable⟩ ⟨6000, 6000, radar6000, locationUnavailable⟩
      ⟨9000, 9000, radar500, locationUnavailable⟩
      (by decide) (by decide) (by decide) rfl (by decide) (by decide) (by decide) (by decide)
      (by decide) (by decide) (by decide)).2.2.1.2.2.2 (by decide)).1,
   (end_to_end_scenario initState (fun _ => List.replicate 4 250) calibratedAt1000
      ⟨3000, 3000, radar6000, locationUnavailable⟩ ⟨6000, 6000, radar6000, locationUnavailable⟩
      ⟨9000, 9000, radar500, locationUnavailable⟩
      (by decide) (by decide) (by decide) rfl (by decide) (by decide) (by decide) (by decide)
      (by decide) (by decide) (by decide)).2.2.2.1⟩

/-! ## Alert dispatch: one attempt per contact -/

/-- C11: for every text, one call of `sendSMSToAll` makes exactly `totalNumbers` = 2
delivery attempts through `sendSMS`, the first addressed to "9609643460" and the second
to "8002213488", the `i`-th being addressed to `phoneNumbers[i]`, each carrying the text
unchanged; `sendSMS` hands the modem the number and then the unchanged text.  Neither
function reads anything from the modem, so the attempts do not depend on it. -/
theorem sendSMSToAll_attempts (text : CStr) :
    smsAttempts (sendSMSToAll text) = [(cstr "9609643460", text), (cstr "8002213488", text)] ∧
      (smsAttempts (sendSMSToAll text)).length = totalNumbers ∧
      (∀ i : Nat, i < totalNumbers →
        (smsAttempts (sendSMSToAll text))[i]? = some (phoneNumbers.getD i [], text)) ∧
      (∀ number : CStr,
        simPrinted (sendSMS number text) = [cstr "AT+CMGS=\"", number, text]) := by
  have h : smsAttempts (sendSMSToAll text)
      = [(cstr "9609643460", text), (cstr "8002213488", text)] := by
    simp [sendSMSToAll, totalNumbers, List.range_succ, phoneNumbers, smsAttempts]
  refine ⟨h, ?_, ?_, ?_⟩
  · rw [h]
    rfl
  · intro i hi
    rw [h]
    have hi2 : i = 0 ∨ i = 1 := by
      unfold totalNumbers at hi
      omega
    rcases hi2 with rfl | rfl <;> simp [phoneNumbers]
  · intro number
    simp [sendSMS, simPrinted]

/-- Witness of C11: the second attempt of a "Band Deactivated" batch goes to the second
contact. -/
theorem sendSMSToAll_attempts_witness :
    (smsAttempts (sendSMSToAll (cstr "🔕 Band Deactivated")))[1]?
      = some (phoneNumbers.getD 1 [], cstr "🔕 Band Deactivated") :=
  (sendSMSToAll_attempts (cstr "🔕 Band Deactivated")).2.2.1 1 (by decide)

/-! ## Radar sampling: the bounded read -/

theorem byteSum_bounds (bytes : List UInt8) :
    0 ≤ byteSum bytes ∧ byteSum bytes ≤ 255 * bytes.length := by
  induction bytes with
  | nil => simp [byteSum]
  | cons b rest ih =>
    have hb := byte_toNat_le b
    simp only [byteSum, List.map_cons, List.sum_cons, List.length_cons] at ih ⊢
    push_cast
    omega

theorem readEnergySampleLoop_eq (buf : List UInt8) :
    ∀ (energy : Int) (count : Nat), count ≤ 50 → 0 ≤ energy → energy ≤ 255 * count →
      readEnergySampleLoop buf energy count
        = (energy + byteSum (buf.take (50 - count)), buf.drop (50 - count)) := by
  induction buf with
  | nil =>
    intro energy count _ _ _
    simp [readEnergySampleLoop, byteSum]
  | cons b rest ih =>
    intro energy count hc h0 h1
    have hb := byte_toNat_le b
    simp only [readEnergySampleLoop]
    split
    · rename_i hlt
      have hadd : addLong energy (b.toNat : Int) = energy + (b.toNat : Int) :=
        addLong_eq_add _ _ (by omega) (by omega)
      rw [hadd, ih _ _ (by omega) (by omega) (by push_cast; omega)]
      have hk : 50 - count = (50 - (count + 1)) + 1 := by omega
      rw [hk, List.take_succ_cons, List.drop_succ_cons]
      simp only [byteSum, List.map_cons, List.sum_cons]
      rw [add_assoc]
    · rename_i hge
      have hk : 50 - count = 0 := by omega
      rw [hk]
      simp [byteSum]

/-- C15: on a radar port holding `n` bytes, `readEnergySample` returns the sum of the
first `min n 50` bytes, reads exactly those bytes and leaves the others in the port; its
result lies between 0 and 50 * 255 = 12750; it never reads more than 50 bytes, and what
the port holds beyond the first 50 bytes has no influence on the result. -/
theorem readEnergySample_bounded (radar : List UInt8) :
    (readEnergySample radar).1 = byteSum (radar.take (min radar.length 50)) ∧
      (readEnergySample radar).2 = radar.drop (min radar.length 50) ∧
      radar.take (min radar.length 50) ++ (readEnergySample radar).2 = radar ∧
      radar.length - (readEnergySample radar).2.length = min radar.length 50 ∧
      (0 ≤ (readEnergySample radar).1 ∧ (readEnergySample radar).1 ≤ 12750) ∧
      (∀ more : List UInt8, 50 ≤ radar.length →
        (readEnergySample (radar ++ more)).1 = (readEnergySample radar).1 ∧
          (readEnergySample (radar ++ more)).2 = (readEnergySample radar).2 ++ more) := by
  have hmin : radar.take (min radar.length 50) = radar.take 50 := by
    rcases Nat.le_total radar.length 50 with h | h
    · rw [Nat.min_eq_left h, List.take_of_length_le h, List.take_of_length_le (le_refl _)]
    · rw [Nat.min_eq_right h]
  have hmin2 : radar.drop (min radar.length 50) = radar.drop 50 := by
    rcases Nat.le_total radar.length 50 with h | h
    · rw [Nat.min_eq_left h, List.drop_of_length_le h, List.drop_of_length_le (le_refl _)]
    · rw [Nat.min_eq_right h]
  have heq : ∀ buf : List UInt8, readEnergySample buf = (byteSum (buf.take 50), buf.drop 50) := by
    intro buf
    unfold readEnergySample
    rw [readEnergySampleLoop_eq buf 0 0 (by omega) (by omega) (by omega)]
    simp
  rw [heq radar, hmin, hmin2]
  refine ⟨rfl, rfl, List.take_append_drop 50 radar, ?_, ?_, ?_⟩
  · simp only [List.length_drop]
    omega
  · have hb := byteSum_bounds (radar.take 50)
    have hl : (radar.take 50).length ≤ 50 := by
      rw [List.length_take]
      exact Nat.min_le_left _ _
    simp only
    omega
  · intro more hlen
    rw [heq (radar ++ more)]
    simp only
    rw [List.take_append_of_le_length hlen, List.drop_append_of_le_length hlen]
    exact ⟨rfl, rfl⟩

/-- Witness of C15: from a port holding 60 bytes of value 255, the sample is 12750 and
10 bytes stay in the port. -/
theorem readEnergySample_bounded_witness :
    (readEnergySample (radarSaturated ++ [1, 2, 3])).1 = (readEnergySample radarSaturated).1 ∧
      (readEnergySample (radarSaturated ++ [1, 2, 3])).2
        = (readEnergySample radarSaturated).2 ++ [1, 2, 3] :=
  (readEnergySample_bounded radarSaturated).2.2.2.2.2 [1, 2, 3] (by decide)

/-! ## Mode controller: at most one transition per call -/

/-- C17: whatever the state, the button reading and the clock readings, a call of
`checkSafeButton` fires at most one of its two transitions: either it dispatches nothing
and leaves the mode as it was, or it goes from ACTIVE to SAFE and dispatches only "Band
Deactivated", or it goes from SAFE to ACTIVE and dispatches only "Band Reactivated"; in
particular it dispatches at most one batch. -/
theorem checkSafeButton_single_transition (s : State) (b : Level) (tPress tCheck : Nat) :
    smsBatches (checkSafeButton s b tPress tCheck).2 ≤ 1 ∧
      ((smsTexts (checkSafeButton s b tPress tCheck).2 = [] ∧
          (checkSafeButton s b tPress tCheck).1.safeMode = s.safeMode) ∨
        (smsTexts (checkSafeButton s b tPress tCheck).2 = [cstr "🔕 Band Deactivated"] ∧
          s.safeMode = false ∧ (checkSafeButton s b tPress tCheck).1.safeMode = true) ∨
        (smsTexts (checkSafeButton s b tPress tCheck).2 = [cstr "✅ Band Reactivated"] ∧
          s.safeMode = true ∧ (checkSafeButton s b tPress tCheck).1.safeMode = false)) := by
  cases b with
  | HIGH =>
    rw [checkSafeButton_high]
    simp [smsBatches, smsTexts]
  | LOW =>
    rw [checkSafeButton_low]
    cases hm : s.safeMode <;> split_ifs <;> simp_all [smsBatches, smsTexts]

/-! ## Occupancy classification: range and monotonicity -/

/-- C19: for every threshold array, ascending or not, `estimateHumans` returns a value
between 1 and 5 and is monotone: `e1 <= e2` implies
`1 <= estimateHumans e1 <= estimateHumans e2 <= 5`. -/
theorem estimateHumans_monotone (personThreshold : Fin 6 → Int) (e1 e2 : Int) (h : e1 ≤ e2) :
    1 ≤ estimateHumans personThreshold e1 ∧
      estimateHumans personThreshold e1 ≤ estimateHumans personThreshold e2 ∧
      estimateHumans personThreshold e2 ≤ 5 := by
  unfold estimateHumans
  split_ifs <;> omega

/-- Witness of C19: a descending threshold array. -/
theorem estimateHumans_monotone_witness :
    1 ≤ estimateHumans (fun i => [0, 9000, 7000, 5000, 3000, 1000].getD i.val 0) 4000 ∧
      estimateHumans (fun i => [0, 9000, 7000, 5000, 3000, 1000].getD i.val 0) 4000
        ≤ estimateHumans (fun i => [0, 9000, 7000, 5000, 3000, 1000].getD i.val 0) 9500 ∧
      estimateHumans (fun i => [0, 9000, 7000, 5000, 3000, 1000].getD i.val 0) 9500 ≤ 5 :=
  estimateHumans_monotone (fun i => [0, 9000, 7000, 5000, 3000, 1000].getD i.val 0) 4000 9500
    (by decide)

/-! ## Occupancy alerting: when an alert is dispatched -/

theorem estimateHumans_ge_three (personThreshold : Fin 6 → Int) (energy : Int)
    (h12 : personThreshold 1 ≤ personThreshold 2) :
    (estimateHumans personThreshold energy ≥ 3 ↔ energy > personThreshold 2) ∧
      estimateHumans personThreshold energy ≤ 5 := by
  unfold estimateHumans
  split_ifs <;> constructor <;> omega

/-- C16: with the calibration values that `setup` derives from any radar input
(`calibrated` true), the classification of a drained sum dispatches an occupancy alert
batch iff the sum exceeds `baselineEnergy + 4000` and `alertSent` was false; the batch
is then the only one, its text carries the count `estimateHumans(sum)`, which lies
between 3 and 5, and `alertSent` becomes true.  The same holds for an execution of the
whole occupancy block whose gate has passed, the sum being the drained one. -/
theorem occupancy_alert_iff (s0 : State) (radar0 : Nat → List UInt8) (s : State)
    (energySum : Int) (gpsText : CStr)
    (hcal : s.calibrated = true)
    (hbase : s.baselineEnergy = (setup s0 radar0).baselineEnergy)
    (hthr : s.personThreshold = (setup s0 radar0).personThreshold) :
    (smsTexts (classifyEnergy s energySum gpsText).2
        = if energySum > s.baselineEnergy + 4000 ∧ s.alertSent = false then
            [peopleAlert (estimateHumans s.personThreshold energySum) gpsText]
          else []) ∧
      (smsBatches (classifyEnergy s energySum gpsText).2 = 1 ↔
        (energySum > s.baselineEnergy + 4000 ∧ s.alertSent = false)) ∧
      (energySum > s.baselineEnergy + 4000 → s.alertSent = false →
        3 ≤ estimateHumans s.personThreshold energySum ∧
          estimateHumans s.personThreshold energySum ≤ 5 ∧
          (classifyEnergy s energySum gpsText).1.alertSent = true) ∧
      (∀ (tGate tStamp : Nat) (radar : List UInt8), subULong tGate s.lastRead > 2000 →
        (smsBatches (humanCount s tGate tStamp radar gpsText).2 = 1 ↔
          (drainRadar radar > s.baselineEnergy + 4000 ∧ s.alertSent = false))) := by
  obtain ⟨_, t1, t2, _, _, _⟩ := setup_personThreshold s0 radar0
  obtain ⟨_, b0, b1⟩ := setup_baselineEnergy s0 radar0
  rw [← hthr, ← hbase] at t1 t2
  rw [← hbase] at b0 b1
  have key : ∀ (st : State) (e : Int), st.calibrated = true →
      st.baselineEnergy = s.baselineEnergy → st.personThreshold = s.personThreshold →
      st.alertSent = s.alertSent →
      smsTexts (classifyEnergy st e gpsText).2
        = (if e > s.baselineEnergy + 4000 ∧ s.alertSent = false then
            [peopleAlert (estimateHumans s.personThreshold e) gpsText]
          else []) ∧
        (e > s.baselineEnergy + 4000 → s.alertSent = false →
          (classifyEnergy st e gpsText).1.alertSent = true) := by
    intro st e hc hb hp ha
    obtain ⟨h3, _⟩ := estimateHumans_ge_three s.personThreshold e (by omega)
    unfold classifyEnergy
    dsimp only
    rw [hc, hb, hp, ha]
    by_cases hgt : e > s.baselineEnergy + 4000
    · have hb' : e > s.baselineEnergy := by omega
      have hh : estimateHumans s.personThreshold e ≥ 3 := h3.mpr (by omega)
      cases hs : s.alertSent <;> simp [hgt, hb', hh, smsTexts, smsTexts_append]
    · have hh : ¬ estimateHumans s.personThreshold e ≥ 3 := fun hx => hgt (by
        have := h3.mp hx
        omega)
      by_cases hb' : e > s.baselineEnergy <;> simp [hgt, hb', hh, smsTexts]
  have hone : ∀ (l : List CStr) (c : Prop) [Decidable c] (x : CStr),
      l = (if c then [x] else []) → (l.length = 1 ↔ c) := by
    intro l c _ x hl
    rw [hl]
    split_ifs with hc <;> simp [hc]
  obtain ⟨k1, k2⟩ := key s energySum hcal rfl rfl rfl
  refine ⟨k1, hone _ _ _ k1, ?_, ?_⟩
  · intro hgt hs
    obtain ⟨h3, h5⟩ := estimateHumans_ge_three s.personThreshold energySum (by omega)
    exact ⟨h3.mpr (by omega), h5, k2 hgt hs⟩
  · intro tGate tStamp radar hgate
    rw [humanCount_run s tGate tStamp radar gpsText hgate]
    exact hone _ _ _ (key { s with lastRead := tStamp } (drainRadar radar) hcal rfl rfl rfl).1

/-- Witness of C16: after a calibration at baseline 1000, with no alert pending, the sum
6000 exceeds 5000 and exactly one batch is dispatched. -/
theorem occupancy_alert_iff_witness :
    smsBatches (classifyEnergy calibratedAt1000 6000 locationUnavailable).2 = 1 :=
  (occupancy_alert_iff initState (fun _ => List.replicate 4 250) calibratedAt1000 6000
    locationUnavailable (by decide) rfl rfl).2.1.mpr ⟨by decide, by decide⟩

/-! ## Safe mode short-circuit and the 2000 ms gate -/

theorem drainLoop_eq (radar : List UInt8) :
    ∀ energySum : Int, drainLoop radar energySum
      = (radar.foldl (fun e b => addLong e (b.toNat : Int)) energySum, []) := by
  induction radar with
  | nil => intro e; rfl
  | cons b rest ih => intro e; simp [drainLoop, ih]

theorem wireBreakDetection_frame (s : State) (w : Level) (g : CStr) :
    (wireBreakDetection s w g).1.lastRead = s.lastRead ∧
      (wireBreakDetection s w g).1.alertSent = s.alertSent ∧
      (wireBreakDetection s w g).1.safeMode = s.safeMode := by
  unfold wireBreakDetection
  split_ifs <;> simp

/-- C12: in every cycle of `loop` in which `safeMode` is true when `checkSafeButton`
returns, the rest of the cycle changes no global (in particular `wireBroken`,
`alertSent` and `lastRead` keep the values they had at the start of the cycle), does only
the LED blink, the status render and the 800 ms delay, so it writes no buzzer output and
dispatches no batch, and leaves the radar port as it was; the outcome does not depend on
the wire, presence, radar or resolver inputs. -/
theorem safe_mode_short_circuit (s : State) (i : LoopInput)
    (hsafe : (checkSafeButton s i.btnState i.tPress i.tCheck).1.safeMode = true) :
    (loop s i).1 = (checkSafeButton s i.btnState i.tPress i.tCheck).1 ∧
      ((loop s i).1.wireBroken = s.wireBroken ∧ (loop s i).1.alertSent = s.alertSent ∧
        (loop s i).1.lastRead = s.lastRead) ∧
      (loop s i).2 = (checkSafeButton s i.btnState i.tPress i.tCheck).2 ++
        [Effect.digitalWrite Pin.LED_PIN (if i.tBlink / 1000 % 2 = 0 then Level.LOW else Level.HIGH),
         Effect.showMessage (cstr "SAFE MODE") (cstr "Alerts OFF"), Effect.delay 800] ∧
      (∀ v : Level, Effect.digitalWrite Pin.BUZZER_PIN v ∈ (loop s i).2 →
        Effect.digitalWrite Pin.BUZZER_PIN v ∈ (checkSafeButton s i.btnState i.tPress i.tCheck).2) ∧
      smsTexts (loop s i).2 = smsTexts (checkSafeButton s i.btnState i.tPress i.tCheck).2 ∧
      (∀ g : CStr, Effect.getGPSLocation g ∉ (loop s i).2) ∧
      loopPort s i = i.radar ∧
      (∀ j : LoopInput, j.btnState = i.btnState → j.tPress = i.tPress → j.tCheck = i.tCheck →
        j.tBlink = i.tBlink → loop s j = loop s i) := by
  obtain ⟨f1, f2, f3, _⟩ := checkSafeButton_frame s i.btnState i.tPress i.tCheck
  have hl : loop s i = ((checkSafeButton s i.btnState i.tPress i.tCheck).1,
      (checkSafeButton s i.btnState i.tPress i.tCheck).2 ++
        [Effect.digitalWrite Pin.LED_PIN (if i.tBlink / 1000 % 2 = 0 then Level.LOW else Level.HIGH),
         Effect.showMessage (cstr "SAFE MODE") (cstr "Alerts OFF"), Effect.delay 800]) := by
    simp only [loop, hsafe, if_true]
  have hnogps : ∀ g : CStr,
      Effect.getGPSLocation g ∉ (checkSafeButton s i.btnState i.tPress i.tCheck).2 := by
    intro g
    cases hb : i.btnState with
    | HIGH => rw [checkSafeButton_high]; simp
    | LOW => rw [checkSafeButton_low]; split_ifs <;> simp
  refine ⟨by rw [hl], ⟨by rw [hl]; exact f1, by rw [hl]; exact f2, by rw [hl]; exact f3⟩,
    by rw [hl], ?_, ?_, ?_, ?_, ?_⟩
  · intro v hv
    rw [hl] at hv
    simpa using hv
  · rw [hl]
    simp [smsTexts_append, smsTexts]
  · intro g hg
    rw [hl] at hg
    simp only [List.mem_append, List.mem_cons, reduceCtorEq, List.mem_nil_iff, or_false,
      false_or] at hg
    exact hnogps g hg
  · simp only [loopPort, hsafe, if_true]
  · intro j h1 h2 h3 h4
    simp only [loop, h1, h2, h3, h4, hsafe, if_true]

/-- Witness of C12: a cycle in SAFE mode with the wire cut, presence detected and radar
bytes pending leaves `wireBroken`, `alertSent` and `lastRead` untouched. -/
theorem safe_mode_short_circuit_witness :
    (loop safeIdle busyCycle).1.wireBroken = safeIdle.wireBroken ∧
      (loop safeIdle busyCycle).1.alertSent = safeIdle.alertSent ∧
      (loop safeIdle busyCycle).1.lastRead = safeIdle.lastRead :=
  (safe_mode_short_circuit safeIdle busyCycle (by decide)).2.1

theorem humanCountStep_lastRead (s : State) (r : CountInput) :
    (humanCountStep s r).1.lastRead
      = if subULong r.tGate s.lastRead > 2000 then r.tStamp else s.lastRead := by
  unfold humanCountStep humanCount classifyEnergy
  dsimp only
  split_ifs <;> simp

theorem humanCount_skip (s : State) (tGate tStamp : Nat) (radar : List UInt8) (gpsText : CStr)
    (hgate : ¬ subULong tGate s.lastRead > 2000) :
    humanCount s tGate tStamp radar gpsText = (s, []) := by
  unfold humanCount
  rw [if_neg hgate]

/-- Along monotone clock readings, every estimator run is more than 2000 ms after the
previous one, whose gate reading was `g`. -/
theorem gateReadings_chain (runs : List CountInput) :
    ∀ (s : State) (g : Nat), g ≤ s.lastRead →
      (clockReadings runs).Pairwise (· ≤ ·) →
      (∀ t ∈ clockReadings runs, s.lastRead ≤ t ∧ t < 4294967296) →
      List.Chain (fun a b => a + 2000 < b) g (gateReadings s runs) := by
  induction runs with
  | nil => intro s g _ _ _; exact List.Chain.nil
  | cons r rest ih =>
    intro s g hg hsorted hrange
    have hcr : clockReadings (r :: rest) = r.tGate :: r.tStamp :: clockReadings rest := by
      simp [clockReadings]
    rw [hcr] at hsorted hrange
    rw [List.pairwise_cons, List.pairwise_cons] at hsorted
    obtain ⟨hgate_le, hstamp_le, hrest⟩ := hsorted
    have hG := hrange r.tGate (List.mem_cons_self _ _)
    have hS := hrange r.tStamp (List.mem_cons_of_mem _ (List.mem_cons_self _ _))
    have hGS : r.tGate ≤ r.tStamp := hgate_le r.tStamp (List.mem_cons_self _ _)
    simp only [gateReadings]
    by_cases hgate : subULong r.tGate s.lastRead > 2000
    · rw [if_pos hgate, List.singleton_append]
      have hsub := subULong_eq_sub r.tGate s.lastRead hG.1 hG.2
      refine List.Chain.cons (by omega) ?_
      have hlr : (humanCountStep s r).1.lastRead = r.tStamp := by
        rw [humanCountStep_lastRead, if_pos hgate]
      refine ih _ _ (by rw [hlr]; exact hGS) hrest ?_
      intro t ht
      rw [hlr]
      exact ⟨hstamp_le t ht, (hrange t (List.mem_cons_of_mem _ (List.mem_cons_of_mem _ ht))).2⟩
    · rw [if_neg hgate, List.nil_append]
      have hlr : (humanCountStep s r).1.lastRead = s.lastRead := by
        rw [humanCountStep_lastRead, if_neg hgate]
      refine ih _ _ (by rw [hlr]; exact hg) hrest ?_
      intro t ht
      rw [hlr]
      exact hrange t (List.mem_cons_of_mem _ (List.mem_cons_of_mem _ ht))

theorem gateReadings_chain' (runs : List CountInput) :
    ∀ s : State, (clockReadings runs).Pairwise (· ≤ ·) →
      (∀ t ∈ clockReadings runs, t < 4294967296) →
      List.Chain' (fun a b => a + 2000 < b) (gateReadings s runs) := by
  induction runs with
  | nil => intro s _ _; exact List.chain'_nil
  | cons r rest ih =>
    intro s hsorted hrange
    have hcr : clockReadings (r :: rest) = r.tGate :: r.tStamp :: clockReadings rest := by
      simp [clockReadings]
    rw [hcr] at hsorted hrange
    have hrange' : ∀ t ∈ clockReadings rest, t < 4294967296 :=
      fun t ht => hrange t (List.mem_cons_of_mem _ (List.mem_cons_of_mem _ ht))
    rw [List.pairwise_cons, List.pairwise_cons] at hsorted
    obtain ⟨hgate_le, hstamp_le, hrest⟩ := hsorted
    simp only [gateReadings]
    by_cases hgate : subULong r.tGate s.lastRead > 2000
    · rw [if_pos hgate, List.singleton_append]
      have hlr : (humanCountStep s r).1.lastRead = r.tStamp := by
        rw [humanCountStep_lastRead, if_pos hgate]
      refine gateReadings_chain rest _ _
        (by rw [hlr]; exact hgate_le r.tStamp (List.mem_cons_self _ _)) hrest ?_
      intro t ht
      rw [hlr]
      exact ⟨hstamp_le t ht, hrange' t ht⟩
    · rw [if_neg hgate, List.nil_append]
      exact ih _ hrest hrange'

/-- C14: the occupancy block executes iff the clock reading of its gate satisfies
`(tGate - lastRead) mod 2^32 > 2000`: it then stores in `lastRead` the reading of the
second `millis()` call, drains the radar port completely and classifies the drained sum;
otherwise it changes no global (`lastRead` and `alertSent` keep their values), does
nothing observable and leaves the radar port untouched.  The same holds for `lastRead`,
`alertSent` and the radar port over a whole ACTIVE cycle of `loop`.  Hence, along
non-decreasing clock readings, the gate readings of any two consecutive estimator runs
are more than 2000 ms apart. -/
theorem estimator_gate :
    (∀ (s : State) (tGate tStamp : Nat) (radar : List UInt8) (gpsText : CStr),
      (subULong tGate s.lastRead > 2000 →
        humanCount s tGate tStamp radar gpsText
            = classifyEnergy { s with lastRead := tStamp } (drainRadar radar) gpsText ∧
          (humanCount s tGate tStamp radar gpsText).1.lastRead = tStamp ∧
          (drainLoop radar 0).1 = drainRadar radar ∧
          humanCountPort s tGate radar = []) ∧
      (¬ subULong tGate s.lastRead > 2000 →
        humanCount s tGate tStamp radar gpsText = (s, []) ∧
          humanCountPort s tGate radar = radar)) ∧
    (∀ (s : State) (i : LoopInput),
      (checkSafeButton s i.btnState i.tPress i.tCheck).1.safeMode = false →
      (subULong i.tGate s.lastRead > 2000 →
        (loop s i).1.lastRead = i.tStamp ∧ loopPort s i = []) ∧
      (¬ subULong i.tGate s.lastRead > 2000 →
        (loop s i).1.lastRead = s.lastRead ∧ (loop s i).1.alertSent = s.alertSent ∧
          loopPort s i = i.radar)) ∧
    (∀ (s : State) (runs : List CountInput),
      (clockReadings runs).Pairwise (· ≤ ·) → (∀ t ∈ clockReadings runs, t < 4294967296) →
      List.Chain' (fun a b => a + 2000 < b) (gateReadings s runs)) := by
  refine ⟨?_, ?_, ?_⟩
  · intro s tGate tStamp radar gpsText
    constructor
    · intro hgate
      have hrun := humanCount_run s tGate tStamp radar gpsText hgate
      have hlr := humanCountStep_lastRead s ⟨tGate, tStamp, radar, gpsText⟩
      simp only [humanCountStep, if_pos hgate] at hlr
      refine ⟨hrun, hlr, ?_, ?_⟩
      · rw [drainLoop_eq]
        rfl
      · simp only [humanCountPort, if_pos hgate, drainLoop_eq]
    · intro hgate
      exact ⟨humanCount_skip s tGate tStamp radar gpsText hgate, by
        simp only [humanCountPort, if_neg hgate]⟩
  · intro s i hmode
    obtain ⟨_, f2, f3, _⟩ := checkSafeButton_frame s i.btnState i.tPress i.tCheck
    obtain ⟨w1, w2, _⟩ := wireBreakDetection_frame
      (checkSafeButton s i.btnState i.tPress i.tCheck).1 i.wireState i.gpsWire
    have hl : (loop s i).1 = (humanCount
        (wireBreakDetection (checkSafeButton s i.btnState i.tPress i.tCheck).1 i.wireState
          i.gpsWire).1 i.tGate i.tStamp i.radar i.gpsCount).1 := by
      simp only [loop, hmode, Bool.false_eq_true, if_false]
    have hp : loopPort s i = humanCountPort
        (wireBreakDetection (checkSafeButton s i.btnState i.tPress i.tCheck).1 i.wireState
          i.gpsWire).1 i.tGate i.radar := by
      simp only [loopPort, hmode, Bool.false_eq_true, if_false]
    rw [hl, hp]
    constructor
    · intro hgate
      have hgate' : subULong i.tGate (wireBreakDetection
          (checkSafeButton s i.btnState i.tPress i.tCheck).1 i.wireState i.gpsWire).1.lastRead
          > 2000 := by
        rw [w1, f3]
        exact hgate
      have hlr := humanCountStep_lastRead (wireBreakDetection
          (checkSafeButton s i.btnState i.tPress i.tCheck).1 i.wireState i.gpsWire).1
          ⟨i.tGate, i.tStamp, i.radar, i.gpsCount⟩
      simp only [humanCountStep, if_pos hgate'] at hlr
      exact ⟨hlr, by simp only [humanCountPort, if_pos hgate', drainLoop_eq]⟩
    · intro hgate
      have hgate' : ¬ subULong i.tGate (wireBreakDetection
          (checkSafeButton s i.btnState i.tPress i.tCheck).1 i.wireState i.gpsWire).1.lastRead
          > 2000 := by
        rw [w1, f3]
        exact hgate
      rw [humanCount_skip _ _ _ _ _ hgate']
      exact ⟨by rw [w1, f3], by rw [w2, f2], by simp only [humanCountPort, if_neg hgate']⟩
  · intro s runs hsorted hrange
    exact gateReadings_chain' runs s hsorted hrange

/-- Witness of C14: of five executions at clock readings 1000, 2500, 4000, 4400 and 7000
from the initial state, those at 2500 and 7000 run, more than 2000 ms apart. -/
theorem estimator_gate_witness :
    List.Chain' (fun a b => a + 2000 < b) (gateReadings initState fiveTicks) ∧
      gateReadings initState fiveTicks = [2500, 7000] :=
  ⟨estimator_gate.2.2 initState fiveTicks (by decide) (by decide), by decide⟩

/-! ## Location resolver -/

theorem scanBytes_noFix {σ δ : Type} (lib : GPSLibrary σ δ) (bytes : List UInt8) :
    ∀ (p : σ) (n : Nat),
      (∀ k, k < bytes.length →
        lib.locationIsUpdated (parserAfter lib p (bytes.take (k + 1))) = false) →
      scanBytes lib p bytes n = GPSScan.noFix (parserAfter lib p bytes) (n + bytes.length) := by
  induction bytes with
  | nil => intro p n _; simp [scanBytes, parserAfter]
  | cons b rest ih =>
    intro p n hno
    have h0 := hno 0 (by simp)
    simp only [parserAfter, List.take_succ_cons, List.take_zero, List.foldl_cons,
      List.foldl_nil] at h0
    simp only [scanBytes, h0, Bool.false_eq_true, if_false]
    rw [ih (lib.encode p b) (n + 1) (fun k hk => by
      have := hno (k + 1) (by simpa using hk)
      simpa [parserAfter] using this)]
    simp only [parserAfter, List.foldl_cons, List.length_cons]
    congr 1
    omega

theorem scanBytes_fix {σ δ : Type} (lib : GPSLibrary σ δ) (bytes : List UInt8) :
    ∀ (p : σ) (n k : Nat), k < bytes.length →
      lib.locationIsUpdated (parserAfter lib p (bytes.take (k + 1))) = true →
      (∀ m, m < k → lib.locationIsUpdated (parserAfter lib p (bytes.take (m + 1))) = false) →
      scanBytes lib p bytes n
        = GPSScan.fix (parserAfter lib p (bytes.take (k + 1))) (n + k + 1) := by
  induction bytes with
  | nil => intro p n k hk; simp at hk
  | cons b rest ih =>
    intro p n k hk hfix hno
    cases k with
    | zero =>
      simp only [parserAfter, List.take_succ_cons, List.take_zero, List.foldl_cons,
        List.foldl_nil] at hfix ⊢
      simp only [scanBytes, hfix, if_true]
    | succ j =>
      have h0 := hno 0 (by omega)
      simp only [parserAfter, List.take_succ_cons, List.take_zero, List.foldl_cons,
        List.foldl_nil] at h0
      simp only [scanBytes, h0, Bool.false_eq_true, if_false]
      rw [ih (lib.encode p b) (n + 1) j (by simpa using hk)
        (by simpa [parserAfter] using hfix)
        (fun m hm => by
          have := hno (m + 1) (by omega)
          simpa [parserAfter] using this)]
      simp only [parserAfter, List.take_succ_cons, List.foldl_cons]
      congr 1
      omega

theorem windowBytes_cons_in (start : Nat) (q : GPSPoll) (rest : List GPSPoll)
    (h : subULong q.now start < 5000) :
    windowBytes start (q :: rest) = q.bytes ++ windowBytes start rest := by
  simp [windowBytes, List.takeWhile_cons, h]

theorem windowBytes_cons_out (start : Nat) (q : GPSPoll) (rest : List GPSPoll)
    (h : ¬ subULong q.now start < 5000) :
    windowBytes start (q :: rest) = [] := by
  simp [windowBytes, List.takeWhile_cons, h]

theorem parserAfter_append {σ δ : Type} (lib : GPSLibrary σ δ) (p : σ) (xs ys : List UInt8) :
    parserAfter lib p (xs ++ ys) = parserAfter lib (parserAfter lib p xs) ys := by
  simp [parserAfter, List.foldl_append]

theorem getGPSLocationLoop_fix {σ δ : Type} (lib : GPSLibrary σ δ) (start : Nat)
    (polls : List GPSPoll) :
    ∀ (p : σ) (n k : Nat), k < (windowBytes start polls).length →
      lib.locationIsUpdated (parserAfter lib p ((windowBytes start polls).take (k + 1))) = true →
      (∀ m, m < k →
        lib.locationIsUpdated (parserAfter lib p ((windowBytes start polls).take (m + 1)))
          = false) →
      getGPSLocationLoop lib start p n polls
        = some ⟨mapLink lib (parserAfter lib p ((windowBytes start polls).take (k + 1))),
            n + k + 1,
            [Effect.serialPrint (cstr "📍 Location: "),
             Effect.serialPrintln
               (mapLink lib (parserAfter lib p ((windowBytes start polls).take (k + 1))))]⟩ := by
  induction polls with
  | nil => intro p n k hk; simp [windowBytes] at hk
  | cons q rest ih =>
    intro p n k hk hfix hno
    by_cases hin : subULong q.now start < 5000
    · rw [windowBytes_cons_in start q rest hin] at hk hfix hno ⊢
      simp only [getGPSLocationLoop, hin, if_true]
      by_cases hkq : k < q.bytes.length
      · have htake : ∀ m, m ≤ k → (q.bytes ++ windowBytes start rest).take (m + 1)
            = q.bytes.take (m + 1) := by
          intro m hm
          rw [List.take_append_of_le_length (by omega)]
        rw [htake k (le_refl _)] at hfix ⊢
        rw [scanBytes_fix lib q.bytes p n k hkq hfix (fun m hm => by
          have := hno m hm
          rwa [htake m (by omega)] at this)]
      · have hkq' : q.bytes.length ≤ k := by omega
        have htake : ∀ m, q.bytes.length ≤ m → (q.bytes ++ windowBytes start rest).take (m + 1)
            = q.bytes ++ (windowBytes start rest).take (m - q.bytes.length + 1) := by
          intro m hm
          rw [List.take_append_eq_append_take, List.take_of_length_le (by omega)]
          congr 2
          omega
        have hpre : ∀ j, j < q.bytes.length → (q.bytes ++ windowBytes start rest).take (j + 1)
            = q.bytes.take (j + 1) := by
          intro j hj
          rw [List.take_append_of_le_length (by omega)]
        rw [scanBytes_noFix lib q.bytes p n (fun j hj => by
          have := hno j (by omega)
          rwa [hpre j hj] at this)]
        simp only
        rw [htake k hkq', parserAfter_append] at hfix ⊢
        rw [List.length_append] at hk
        rw [ih (parserAfter lib p q.bytes) (n + q.bytes.length) (k - q.bytes.length) (by omega)
          hfix (fun m hm => by
            have := hno (m + q.bytes.length) (by omega)
            rw [htake (m + q.bytes.length) (by omega), parserAfter_append] at this
            simpa using this)]
        have hn : n + q.bytes.length + (k - q.bytes.length) + 1 = n + k + 1 := by omega
        rw [hn]
    · rw [windowBytes_cons_out start q rest hin] at hk
      simp at hk

theorem getGPSLocationLoop_timeout {σ δ : Type} (lib : GPSLibrary σ δ) (start : Nat)
    (polls : List GPSPoll) :
    ∀ (p : σ) (n : Nat),
      (∀ k, k < (windowBytes start polls).length →
        lib.locationIsUpdated (parserAfter lib p ((windowBytes start polls).take (k + 1)))
          = false) →
      timedOut start polls = true →
      getGPSLocationLoop lib start p n polls
        = some ⟨cstr "Location Unavailable", n + (windowBytes start polls).length,
            [Effect.serialPrintln (cstr "📍 GPS: Unavailable")]⟩ := by
  induction polls with
  | nil => intro p n _ hto; simp [timedOut] at hto
  | cons q rest ih =>
    intro p n hno hto
    by_cases hin : subULong q.now start < 5000
    · rw [windowBytes_cons_in start q rest hin] at hno ⊢
      simp only [getGPSLocationLoop, hin, if_true]
      have hpre : ∀ j, j < q.bytes.length → (q.bytes ++ windowBytes start rest).take (j + 1)
          = q.bytes.take (j + 1) := by
        intro j hj
        rw [List.take_append_of_le_length (by omega)]
      have htake : ∀ m, (q.bytes ++ windowBytes start rest).take (m + q.bytes.length + 1)
          = q.bytes ++ (windowBytes start rest).take (m + 1) := by
        intro m
        rw [List.take_append_eq_append_take, List.take_of_length_le (by omega)]
        congr 2
        omega
      rw [scanBytes_noFix lib q.bytes p n (fun j hj => by
        have := hno j (by rw [List.length_append]; omega)
        rwa [hpre j hj] at this)]
      simp only
      have hto' : timedOut start rest = true := by
        simpa [timedOut, hin] using hto
      rw [ih (parserAfter lib p q.bytes) (n + q.bytes.length) (fun m hm => by
        have := hno (m + q.bytes.length) (by rw [List.length_append]; omega)
        rw [htake m, parserAfter_append] at this
        exact this) hto']
      rw [List.length_append, Nat.add_assoc]
    · rw [windowBytes_cons_out start q rest hin]
      simp [getGPSLocationLoop, hin]

/-- C13: `getGPSLocation`, for any parser and any number rendering.  If, among the bytes
the GPS port offers in iterations that start before 5000 ms have elapsed, the parser
reports an updated fix after some byte, the function returns at the first such byte,
having read no byte beyond it, and the string it returns is
"https://maps.google.com/?q=" followed by the latitude, a comma and the longitude, both
rendered by `String(value, 6)` from the parser state at that byte.  If the parser reports
no updated fix after any of those bytes and an iteration starts at 5000 ms or later, the
function returns exactly "Location Unavailable". -/
theorem getGPSLocation_result {σ δ : Type} (lib : GPSLibrary σ δ) (p : σ) (start : Nat)
    (polls : List GPSPoll) :
    (∀ k, k < (windowBytes start polls).length →
      lib.locationIsUpdated (parserAfter lib p ((windowBytes start polls).take (k + 1))) = true →
      (∀ m, m < k →
        lib.locationIsUpdated (parserAfter lib p ((windowBytes start polls).take (m + 1)))
          = false) →
      getGPSLocation lib p start polls
          = some ⟨mapLink lib (parserAfter lib p ((windowBytes start polls).take (k + 1))),
              k + 1,
              [Effect.serialPrint (cstr "📍 Location: "),
               Effect.serialPrintln
                 (mapLink lib (parserAfter lib p ((windowBytes start polls).take (k + 1))))]⟩ ∧
        cstr "https://maps.google.com/?q="
          <+: mapLink lib (parserAfter lib p ((windowBytes start polls).take (k + 1))) ∧
        mapLink lib (parserAfter lib p ((windowBytes start polls).take (k + 1)))
          = cstr "https://maps.google.com/?q="
            ++ lib.stringOfDouble
                (lib.locationLat (parserAfter lib p ((windowBytes start polls).take (k + 1)))) 6
            ++ cstr ","
            ++ lib.stringOfDouble
                (lib.locationLng (parserAfter lib p ((windowBytes start polls).take (k + 1)))) 6) ∧
    ((∀ k, k < (windowBytes start polls).length →
        lib.locationIsUpdated (parserAfter lib p ((windowBytes start polls).take (k + 1)))
          = false) →
      timedOut start polls = true →
      getGPSLocation lib p start polls
        = some ⟨cstr "Location Unavailable", (windowBytes start polls).length,
            [Effect.serialPrintln (cstr "📍 GPS: Unavailable")]⟩) := by
  constructor
  · intro k hk hfix hno
    refine ⟨?_, ?_, rfl⟩
    · unfold getGPSLocation
      rw [getGPSLocationLoop_fix lib start polls p 0 k hk hfix hno]
      simp
    · unfold mapLink
      rw [List.append_assoc, List.append_assoc]
      exact List.prefix_append _ _
  · intro hno hto
    unfold getGPSLocation
    rw [getGPSLocationLoop_timeout lib start polls p 0 hno hto]
    simp

/-- Witness of C13: with a parser that reports a fix at each line feed, a line feed that
arrives 1200 ms after the start yields the map link after 4 bytes, and a line feed that
arrives only at 5000 ms yields the placeholder. -/
theorem getGPSLocation_result_witness :
    (getGPSLocation lineFeedGPS (0, false) 100 pollsWithFix).map (fun r => (r.text, r.consumed))
        = some (cstr "https://maps.google.com/?q=28.613900,77.209000", 4) ∧
      (getGPSLocation lineFeedGPS (0, false) 100 pollsWithoutFix).map
          (fun r => (r.text, r.consumed))
        = some (cstr "Location Unavailable", 3) :=
  ⟨(congrArg (Option.map (fun r : GPSOutcome => (r.text, r.consumed)))
      ((getGPSLocation_result lineFeedGPS (0, false) 100 pollsWithFix).1 3
        (by decide) (by decide) (by decide)).1).trans (by decide),
   (congrArg (Option.map (fun r : GPSOutcome => (r.text, r.consumed)))
      ((getGPSLocation_result lineFeedGPS (0, false) 100 pollsWithoutFix).2
        (by decide) (by decide))).trans (by decide)⟩

/-! ## Tamper condition across safe mode -/

theorem wireCutAlert_take (g : CStr) : (wireCutAlert g).take 6 = cstr "🚨 W" := by
  have hl : (cstr "🚨 Wire Cut! ").length = 15 := by decide
  have hp : (cstr "🚨 Wire Cut! ").take 6 = cstr "🚨 W" := by decide
  have hm : min 6 (120 - 1) = 6 := by decide
  unfold wireCutAlert snprintf
  rw [List.take_take, hm, List.take_append_eq_append_take, hl, hp]
  simp

theorem peopleAlert_take (h : Int) (g : CStr) (h1 : 1 ≤ h) (h5 : h ≤ 5) :
    (peopleAlert h g).take 6 ≠ cstr "🚨 W" := by
  have key : ∀ head : CStr, head.length = 6 → head ≠ cstr "🚨 W" →
      (snprintf 120 (head ++ cstr " people! " ++ g)).take 6 ≠ cstr "🚨 W" := by
    intro head hlen hne
    have hm : min 6 (120 - 1) = 6 := by decide
    unfold snprintf
    rw [List.take_take, hm, List.append_assoc, List.take_append_eq_append_take, hlen,
      List.take_of_length_le (by omega)]
    simpa using hne
  unfold peopleAlert
  have hcases : h = 1 ∨ h = 2 ∨ h = 3 ∨ h = 4 ∨ h = 5 := by omega
  rcases hcases with rfl | rfl | rfl | rfl | rfl
  · exact key (cstr "🚨 " ++ fmtInt 1) (by decide) (by decide)
  · exact key (cstr "🚨 " ++ fmtInt 2) (by decide) (by decide)
  · exact key (cstr "🚨 " ++ fmtInt 3) (by decide) (by decide)
  · exact key (cstr "🚨 " ++ fmtInt 4) (by decide) (by decide)
  · exact key (cstr "🚨 " ++ fmtInt 5) (by decide) (by decide)

theorem estimateHumans_range (personThreshold : Fin 6 → Int) (energy : Int) :
    1 ≤ estimateHumans personThreshold energy ∧ estimateHumans personThreshold energy ≤ 5 := by
  unfold estimateHumans
  split_ifs <;> omega

theorem quiet_of_not_batch (e : Effect)
    (hb : e ≠ Effect.digitalWrite Pin.BUZZER_PIN Level.HIGH)
    (hs : ∀ t : CStr, e = Effect.sendSMSToAll t → t.take 6 ≠ cstr "🚨 W") : e.quiet := by
  refine ⟨hb, ?_⟩
  intro g heq
  exact hs (wireCutAlert g) heq (wireCutAlert_take g)

theorem checkSafeButton_quiet (s : State) (b : Level) (tPress tCheck : Nat) :
    ∀ e ∈ (checkSafeButton s b tPress tCheck).2, e.quiet := by
  have hd : (cstr "🔕 Band Deactivated").take 6 ≠ cstr "🚨 W" := by decide
  have hr : (cstr "✅ Band Reactivated").take 6 ≠ cstr "🚨 W" := by decide
  intro e he
  cases b with
  | HIGH => rw [checkSafeButton_high] at he; simp at he
  | LOW =>
    rw [checkSafeButton_low] at he
    apply quiet_of_not_batch
    · intro heq
      rw [heq] at he
      split_ifs at he <;> simp at he
    · intro t ht
      rw [ht] at he
      split_ifs at he <;> simp at he
      all_goals (rw [he]; first | exact hd | exact hr)

theorem radarPresence_quiet (presence : Level) : ∀ e ∈ radarPresence presence, e.quiet := by
  intro e he
  apply quiet_of_not_batch
  · intro heq
    rw [heq] at he
    unfold radarPresence at he
    split_ifs at he <;> simp at he
  · intro t ht
    rw [ht] at he
    unfold radarPresence at he
    split_ifs at he <;> simp at he

theorem humanCount_quiet (s : State) (tGate tStamp : Nat) (radar : List UInt8) (gpsText : CStr) :
    ∀ e ∈ (humanCount s tGate tStamp radar gpsText).2, e.quiet := by
  intro e he
  obtain ⟨r1, r5⟩ := estimateHumans_range s.personThreshold (drainRadar radar)
  have hp := peopleAlert_take (estimateHumans s.personThreshold (drainRadar radar)) gpsText r1 r5
  unfold humanCount classifyEnergy at he
  dsimp only at he
  apply quiet_of_not_batch
  · intro heq
    rw [heq] at he
    split_ifs at he <;> simp at he
  · intro t ht
    rw [ht] at he
    split_ifs at he <;> simp at he
    all_goals (rw [he]; exact hp)

theorem loop_cut_held (s : State) (i : LoopInput) (hcut : s.wireBroken = true)
    (hwire : ((checkSafeButton s i.btnState i.tPress i.tCheck).1.safeMode
      || decide (i.wireState = Level.HIGH)) = true) :
    (loop s i).1.wireBroken = true ∧ ∀ e ∈ (loop s i).2, e.quiet := by
  obtain ⟨f1, _⟩ := checkSafeButton_frame s i.btnState i.tPress i.tCheck
  have hbtn := checkSafeButton_quiet s i.btnState i.tPress i.tCheck
  cases hmode : (checkSafeButton s i.btnState i.tPress i.tCheck).1.safeMode with
  | true =>
    simp only [loop, hmode, if_true]
    refine ⟨by rw [f1]; exact hcut, ?_⟩
    intro e he
    rw [List.mem_append] at he
    rcases he with he | he
    · exact hbtn e he
    · apply quiet_of_not_batch
      · intro heq
        rw [heq] at he
        simp at he
      · intro t ht
        rw [ht] at he
        simp at he
  | false =>
    rw [hmode] at hwire
    have hw : i.wireState = Level.HIGH := by simpa using hwire
    have hheld : wireBreakDetection (checkSafeButton s i.btnState i.tPress i.tCheck).1
        i.wireState i.gpsWire = ((checkSafeButton s i.btnState i.tPress i.tCheck).1, []) :=
      wireBreakDetection_held _ _ _ (by rw [f1, hcut, hw]; simp)
    simp only [loop, hmode, Bool.false_eq_true, if_false, hheld, List.append_nil]
    refine ⟨by rw [humanCount_wireBroken, f1]; exact hcut, ?_⟩
    intro e he
    rw [List.mem_append, List.mem_append] at he
    rcases he with (he | he) | he
    · exact hbtn e he
    · exact radarPresence_quiet i.presence e he
    · exact humanCount_quiet _ _ _ _ _ e he

theorem runSeq_loop_cut_held (cycles : List LoopInput) :
    ∀ s : State, s.wireBroken = true → wireHighWhenActive s cycles = true →
      (runSeq loop s cycles).1.wireBroken = true ∧
        ∀ e ∈ (runSeq loop s cycles).2, e.quiet := by
  induction cycles with
  | nil => intro s hcut _; simp [runSeq, hcut]
  | cons i rest ih =>
    intro s hcut hwire
    simp only [wireHighWhenActive, Bool.and_eq_true] at hwire
    obtain ⟨h1, h2⟩ := loop_cut_held s i hcut hwire.1
    obtain ⟨h3, h4⟩ := ih (loop s i).1 h1 hwire.2
    simp only [runSeq]
    refine ⟨h3, ?_⟩
    intro e he
    rw [List.mem_append] at he
    rcases he with he | he
    · exact h2 e he
    · exact h4 e he

/-- C18: entering safe mode while the wire is cut silences that cut.  In the cycle of
`loop` in which `checkSafeButton` goes from ACTIVE to SAFE with `wireBroken` true, the
buzzer is written LOW and `wireBroken` stays true.  From any state with `wireBroken`
true, over any sequence of cycles in which the wire reads HIGH whenever the cycle is
ACTIVE, `wireBroken` is still true at the end, no cut alert is dispatched and the buzzer
is never written HIGH. -/
theorem tamper_silenced_by_safe_mode :
    (∀ (s : State) (i : LoopInput), s.wireBroken = true → s.safeMode = false →
      (checkSafeButton s i.btnState i.tPress i.tCheck).1.safeMode = true →
      Effect.digitalWrite Pin.BUZZER_PIN Level.LOW ∈ (loop s i).2 ∧
        (loop s i).1.wireBroken = true ∧ (loop s i).1.safeMode = true) ∧
    (∀ (s : State) (cycles : List LoopInput), s.wireBroken = true →
      wireHighWhenActive s cycles = true →
      (runSeq loop s cycles).1.wireBroken = true ∧
        (∀ g : CStr, Effect.sendSMSToAll (wireCutAlert g) ∉ (runSeq loop s cycles).2) ∧
        Effect.digitalWrite Pin.BUZZER_PIN Level.HIGH ∉ (runSeq loop s cycles).2) := by
  constructor
  · intro s i hcut hactive hsafe
    obtain ⟨f1, _⟩ := checkSafeButton_frame s i.btnState i.tPress i.tCheck
    have hbuzz : Effect.digitalWrite Pin.BUZZER_PIN Level.LOW
        ∈ (checkSafeButton s i.btnState i.tPress i.tCheck).2 := by
      cases hb : i.btnState with
      | HIGH =>
        rw [hb, checkSafeButton_high] at hsafe
        simp [hactive] at hsafe
      | LOW =>
        rw [hb, checkSafeButton_low] at hsafe
        rw [checkSafeButton_low]
        split_ifs at hsafe ⊢ <;> simp_all
    have hl : loop s i = ((checkSafeButton s i.btnState i.tPress i.tCheck).1,
        (checkSafeButton s i.btnState i.tPress i.tCheck).2 ++
          [Effect.digitalWrite Pin.LED_PIN
             (if i.tBlink / 1000 % 2 = 0 then Level.LOW else Level.HIGH),
           Effect.showMessage (cstr "SAFE MODE") (cstr "Alerts OFF"), Effect.delay 800]) := by
      simp only [loop, hsafe, if_true]
    rw [hl]
    exact ⟨List.mem_append_left _ hbuzz, by rw [f1]; exact hcut, hsafe⟩
  · intro s cycles hcut hwire
    obtain ⟨h1, h2⟩ := runSeq_loop_cut_held cycles s hcut hwire
    refine ⟨h1, ?_, ?_⟩
    · intro g hg
      exact (h2 _ hg).2 g rfl
    · intro hb
      exact (h2 _ hb).1 rfl

/-- Witness of C18: with the wire cut, a hold that reaches 10 s enters safe mode; after
a release and a 3 s hold the band is ACTIVE again and the wire still reads HIGH, yet no
cut alert is sent and the buzzer is never written HIGH. -/
theorem tamper_silenced_by_safe_mode_witness :
    (runSeq loop cutAndHeld silencedCut).1.wireBroken = true ∧
      (∀ g : CStr, Effect.sendSMSToAll (wireCutAlert g) ∉ (runSeq loop cutAndHeld silencedCut).2) ∧
      Effect.digitalWrite Pin.BUZZER_PIN Level.HIGH ∉ (runSeq loop cutAndHeld silencedCut).2 :=
  tamper_silenced_by_safe_mode.2 cutAndHeld silencedCut rfl (by decide)

end BandCode
